import Mathlib

/-!
# GRANT / REVOKE propagation planning (`src/backend/distributed/commands/grant.c`)

A shallow embedding of `PreprocessGrantStmt` and `CollectGrantTableIdList`.

* `StringInfo` buffers are `String`s: `appendStringInfo` / `appendStringInfoString` are `++`,
  `resetStringInfo` is the empty string.
* `ereport(ERROR, ...)` aborts the call: every function that can raise returns `Except GrantError`.
* The catalog, the role check, the name deparsers and the task planner live outside this file of
  the repository; they are the fields of `Collaborators`.
-/

namespace Citus.Grant

/-! ## Data model -/

/-- PostgreSQL object identifier. -/
abbrev Oid := Nat

/-- Catalog class of relations (`pg_class`), as used by `ObjectAddressSet`. -/
def RelationRelationId : Oid := 1259

/-- The object kinds a `GrantStmt` can carry (`ObjectType` of `parsenodes.h`). -/
inductive ObjectType
  | OBJECT_COLUMN
  | OBJECT_TABLE
  | OBJECT_SEQUENCE
  | OBJECT_DATABASE
  | OBJECT_DOMAIN
  | OBJECT_FDW
  | OBJECT_FOREIGN_SERVER
  | OBJECT_FUNCTION
  | OBJECT_LANGUAGE
  | OBJECT_LARGEOBJECT
  | OBJECT_SCHEMA
  | OBJECT_TABLESPACE
  | OBJECT_TYPE
  | OBJECT_PROCEDURE
  | OBJECT_ROUTINE
  deriving DecidableEq, Repr

/-- The `GrantTargetType` of `parsenodes.h`. -/
inductive GrantTargetType
  | ACL_TARGET_OBJECT
  | ACL_TARGET_ALL_IN_SCHEMA
  | ACL_TARGET_DEFAULTS
  deriving DecidableEq, Repr

/-- The `DropBehavior` of `parsenodes.h`. -/
inductive DropBehavior
  | DROP_RESTRICT
  | DROP_CASCADE
  deriving DecidableEq, Repr

/-- An `AccessPriv`: `priv_name` is `NULL` (`none`) for ALL PRIVILEGES, `cols` is `NIL` without columns. -/
structure AccessPriv where
  priv_name : Option String
  cols : List String
  deriving DecidableEq, Repr

/-- The `RoleSpecType` of `parsenodes.h`. -/
inductive RoleSpecType
  | ROLESPEC_CSTRING
  | ROLESPEC_CURRENT_ROLE
  | ROLESPEC_CURRENT_USER
  | ROLESPEC_SESSION_USER
  | ROLESPEC_PUBLIC
  deriving DecidableEq, Repr

/-- A `RoleSpec`: a grantee. -/
structure RoleSpec where
  roletype : RoleSpecType
  rolename : Option String
  deriving DecidableEq, Repr

/-- The `GrantStmt` node. An element of `objects` (a `RangeVar` when `targtype` is `ACL_TARGET_OBJECT`, a
schema name when it is `ACL_TARGET_ALL_IN_SCHEMA`) is kept as the name it spells: the code only
hands it to `RangeVarGetRelid` or `get_namespace_oid`. -/
structure GrantStmt where
  is_grant : Bool
  targtype : GrantTargetType
  objtype : ObjectType
  objects : List String
  privileges : List AccessPriv
  grantees : List RoleSpec
  grant_option : Bool
  behavior : DropBehavior
  deriving DecidableEq, Repr

/-- An `ObjectAddress`. -/
structure ObjectAddress where
  classId : Oid
  objectId : Oid
  objectSubId : Nat
  deriving DecidableEq, Repr

/-- A task descriptor produced by the task planner; its content is not inspected here. -/
structure Task where
  anchorShardId : Nat
  queryString : String
  deriving DecidableEq, Repr

/-- A `DDLJob`, restricted to the fields `PreprocessGrantStmt` sets. -/
structure DDLJob where
  targetObjectAddress : ObjectAddress
  metadataSyncCommand : String
  taskList : List Task
  deriving DecidableEq, Repr

/-- The errors the call can be aborted with. -/
inductive GrantError
  /-- Raised by `RangeVarGetRelid` / `get_namespace_oid` with `missing_ok = false` on an unknown name. -/
  | NotFound
  /-- Raised by `EnsureCoordinator` on a node that is not the coordinator. -/
  | NotCoordinator
  /-- The `ereport(ERROR, (errcode(ERRCODE_INTERNAL_ERROR), errmsg(...)))` of the privilege loop. -/
  | MalformedPrivilegeList (errmsg : String)
  deriving DecidableEq, Repr

/-- Everything `grant.c` calls that is defined elsewhere. -/
structure Collaborators where
  /-- Stands for `RangeVarGetRelid(relvar, NoLock, false)`: `none` stands for the raised error. -/
  RangeVarGetRelid : String → Option Oid
  /-- Stands for `get_namespace_oid(nspname, false)`: `none` stands for the raised error. -/
  get_namespace_oid : String → Option Oid
  /-- Stands for `IsCitusTable(relationId)`. -/
  IsCitusTable : Oid → Bool
  /-- Stands for `IsAnyObjectDistributed(list_make1(address))`. -/
  IsAnyObjectDistributed : ObjectAddress → Bool
  /-- Stands for `CitusTableTypeIdList(ANY_CITUS_TABLE_TYPE)`. -/
  CitusTableTypeIdList : List Oid
  /-- Stands for `get_rel_namespace(relationId)`. -/
  get_rel_namespace : Oid → Oid
  /-- Stands for `generate_relation_name(relationId, NIL)`. -/
  generate_relation_name : Oid → String
  /-- Stands for `RoleSpecString(spec, true)`. -/
  RoleSpecString : RoleSpec → String
  /-- Stands for `DDLTaskList(relationId, commandString)`. -/
  DDLTaskList : Oid → String → List Task
  /-- Whether the executing node is the coordinator (what `EnsureCoordinator` tests). -/
  isCoordinator : Bool

/-! ## Helpers defined outside `grant.c` -/

/-- The macro `ObjectAddressSet(addr, class_id, object_id)`. -/
def ObjectAddressSet (class_id object_id : Oid) : ObjectAddress :=
  { classId := class_id, objectId := object_id, objectSubId := 0 }

/-- The list helper `list_append_unique_oid(list, datum)`: appends unless already a member. -/
def list_append_unique_oid (list : List Oid) (datum : Oid) : List Oid :=
  if datum ∈ list then list else list ++ [datum]

/-- The check `EnsureCoordinator()`: raises unless the node is the coordinator. -/
def EnsureCoordinator (env : Collaborators) : Except GrantError Unit :=
  if env.isCoordinator then .ok () else .error .NotCoordinator

/-- Modelled from the spec: `AppendColumnNameList` (the deparser's column-list helper, not among
the sources). The spec renders a privilege with columns as "its name immediately followed by a
parenthesized, comma-joined column list", `UPDATE(a, b)` for columns `a`, `b`. -/
def AppendColumnNameList (buf : String) (columns : List String) : String :=
  buf ++ "(" ++ ", ".intercalate columns ++ ")"

/-! ## `CollectGrantTableIdList` -/

/-- First loop of the schema branch (lines 251-258): resolve every schema name, keeping each
namespace oid once. -/
def CollectGrantTableIdList.namespaceLoop (env : Collaborators) :
    List String → List Oid → Except GrantError (List Oid)
  | [], namespaceOidList => .ok namespaceOidList
  | nspname :: rest, namespaceOidList =>
    match env.get_namespace_oid nspname with
    | none => .error .NotFound
    | some namespaceOid =>
      CollectGrantTableIdList.namespaceLoop env rest
        (list_append_unique_oid namespaceOidList namespaceOid)

/-- Second loop of the schema branch (lines 260-268): keep the Citus tables of those schemas. -/
def CollectGrantTableIdList.citusTableLoop (env : Collaborators) (namespaceOidList : List Oid) :
    List Oid → List Oid → List Oid
  | [], grantTableList => grantTableList
  | relationId :: rest, grantTableList =>
    let namespaceOid := env.get_rel_namespace relationId
    if namespaceOid ∈ namespaceOidList then
      CollectGrantTableIdList.citusTableLoop env namespaceOidList rest
        (grantTableList ++ [relationId])
    else
      CollectGrantTableIdList.citusTableLoop env namespaceOidList rest grantTableList

/-- Loop of the object branch (lines 273-290). -/
def CollectGrantTableIdList.objectLoop (env : Collaborators) :
    List String → List Oid → Except GrantError (List Oid)
  | [], grantTableList => .ok grantTableList
  | relvar :: rest, grantTableList =>
    match env.RangeVarGetRelid relvar with
    | none => .error .NotFound
    | some relationId =>
      if env.IsCitusTable relationId then
        CollectGrantTableIdList.objectLoop env rest (grantTableList ++ [relationId])
      else
        let sequenceAddress := ObjectAddressSet RelationRelationId relationId
        if env.IsAnyObjectDistributed sequenceAddress then
          CollectGrantTableIdList.objectLoop env rest (grantTableList ++ [relationId])
        else
          CollectGrantTableIdList.objectLoop env rest grantTableList

/-- The function `CollectGrantTableIdList` (lines 227-294). -/
def CollectGrantTableIdList (env : Collaborators) (grantStmt : GrantStmt) :
    Except GrantError (List Oid) :=
  let grantOnTableCommand : Bool :=
    decide (grantStmt.targtype = .ACL_TARGET_OBJECT) && decide (grantStmt.objtype = .OBJECT_TABLE)
  let grantAllTablesOnSchemaCommand : Bool :=
    decide (grantStmt.targtype = .ACL_TARGET_ALL_IN_SCHEMA) &&
      decide (grantStmt.objtype = .OBJECT_TABLE)
  if !grantOnTableCommand && !grantAllTablesOnSchemaCommand then
    .ok []
  else if grantAllTablesOnSchemaCommand then
    let citusTableIdList := env.CitusTableTypeIdList
    match CollectGrantTableIdList.namespaceLoop env grantStmt.objects [] with
    | .error e => .error e
    | .ok namespaceOidList =>
      .ok (CollectGrantTableIdList.citusTableLoop env namespaceOidList citusTableIdList [])
  else
    CollectGrantTableIdList.objectLoop env grantStmt.objects []

/-! ## `PreprocessGrantStmt` -/

/-- The privilege loop (lines 86-132), with its `isFirst` flag and the `privsString` buffer. -/
def PreprocessGrantStmt.privilegeLoop :
    List AccessPriv → Bool → String → Except GrantError String
  | [], _, privsString => .ok privsString
  | priv :: rest, isFirst, privsString =>
    let privsString := if !isFirst then privsString ++ ", " else privsString
    let named : Except GrantError String :=
      match priv.priv_name with
      | some priv_name => .ok (privsString ++ priv_name)
      | none =>
        if isFirst then .ok (privsString ++ "ALL")
        else .error (.MalformedPrivilegeList "Cannot parse GRANT/REVOKE privileges")
    match named with
    | .error e => .error e
    | .ok privsString =>
      let privsString :=
        if priv.cols.isEmpty then privsString
        else privsString ++ AppendColumnNameList "" priv.cols
      PreprocessGrantStmt.privilegeLoop rest false privsString

/-- Deparse of the privileges (lines 75-133). -/
def PreprocessGrantStmt.deparsePrivileges (privileges : List AccessPriv) :
    Except GrantError String :=
  if privileges.isEmpty then .ok ("" ++ "ALL")
  else PreprocessGrantStmt.privilegeLoop privileges true ""

/-- The grantee loop (lines 136-148). -/
def PreprocessGrantStmt.granteeLoop (env : Collaborators) : List RoleSpec → Bool → String → String
  | [], _, granteesString => granteesString
  | spec :: rest, isFirst, granteesString =>
    let granteesString := if !isFirst then granteesString ++ ", " else granteesString
    PreprocessGrantStmt.granteeLoop env rest false (granteesString ++ env.RoleSpecString spec)

/-- The loop over the collected relations (lines 156-211); `targetString` and `ddlString` are the
buffers shared by the iterations. -/
def PreprocessGrantStmt.tableLoop (env : Collaborators) (grantStmt : GrantStmt)
    (privsString granteesString : String) :
    List Oid → String → String → List DDLJob → List DDLJob
  | [], _, _, ddlJobs => ddlJobs
  | relationId :: rest, _targetString, ddlString, ddlJobs =>
    let targetString := ""
    let targetString := targetString ++ env.generate_relation_name relationId
    let ddlString :=
      if grantStmt.is_grant then
        let grantOption := if grantStmt.grant_option then " WITH GRANT OPTION" else ""
        ddlString ++ ("GRANT " ++ privsString ++ " ON " ++ targetString ++ " TO " ++
          granteesString ++ grantOption)
      else
        let grantOption := if grantStmt.grant_option then "GRANT OPTION FOR " else ""
        let ddlString := ddlString ++ ("REVOKE " ++ grantOption ++ privsString ++ " ON " ++
          targetString ++ " FROM " ++ granteesString)
        let ddlString := ddlString ++ ("REVOKE " ++ grantOption ++ privsString ++ " ON " ++
          targetString ++ " FROM " ++ granteesString)
        if grantStmt.behavior = .DROP_CASCADE then ddlString ++ " CASCADE"
        else ddlString ++ " RESTRICT"
    let ddlJob : DDLJob :=
      { targetObjectAddress := ObjectAddressSet RelationRelationId relationId
        metadataSyncCommand := ddlString
        taskList := if env.IsCitusTable relationId then env.DDLTaskList relationId ddlString
                    else [] }
    PreprocessGrantStmt.tableLoop env grantStmt privsString granteesString rest targetString ""
      (ddlJobs ++ [ddlJob])

/-- The function `PreprocessGrantStmt` (lines 37-214). -/
def PreprocessGrantStmt (env : Collaborators) (grantStmt : GrantStmt) :
    Except GrantError (List DDLJob) :=
  if grantStmt.objtype ≠ .OBJECT_TABLE then
    .ok []
  else
    match CollectGrantTableIdList env grantStmt with
    | .error e => .error e
    | .ok tableIdList =>
      if tableIdList.isEmpty then
        .ok []
      else
        match EnsureCoordinator env with
        | .error e => .error e
        | .ok _ =>
          match PreprocessGrantStmt.deparsePrivileges grantStmt.privileges with
          | .error e => .error e
          | .ok privsString =>
            let granteesString := PreprocessGrantStmt.granteeLoop env grantStmt.grantees true ""
            .ok (PreprocessGrantStmt.tableLoop env grantStmt privsString granteesString
              tableIdList "" "" [])

/-! ## The rendering the loops are compared with -/

/-- The text one well-formed privilege contributes: its name (`ALL` for the nameless entry), then
the column list when it has columns. -/
def privilegeText (priv : AccessPriv) : String :=
  priv.priv_name.getD "ALL" ++ (if priv.cols = [] then "" else AppendColumnNameList "" priv.cols)

/-! ## A sample cluster

Schema `public` (oid 2200) holds the distributed tables `orders` and `customers`, the local table
`local_notes` and the distributed sequence `order_id_seq`; schema `sales` holds the distributed
table `leads`. -/

/-- The sample catalog, seen from the coordinator. -/
def sampleCluster : Collaborators where
  RangeVarGetRelid := fun relvar =>
    if relvar = "public.orders" then some 16384
    else if relvar = "public.customers" then some 16385
    else if relvar = "public.local_notes" then some 16390
    else if relvar = "public.order_id_seq" then some 16400
    else if relvar = "sales.leads" then some 16600
    else none
  get_namespace_oid := fun nspname =>
    if nspname = "public" then some 2200
    else if nspname = "sales" then some 16500
    else none
  IsCitusTable := fun relationId => decide (relationId ∈ [16384, 16385, 16600])
  IsAnyObjectDistributed := fun address =>
    decide (address.classId = RelationRelationId) &&
      decide (address.objectId ∈ [16384, 16385, 16400, 16600])
  CitusTableTypeIdList := [16384, 16600, 16385]
  get_rel_namespace := fun relationId => if relationId = 16600 then 16500 else 2200
  generate_relation_name := fun relationId =>
    if relationId = 16384 then "public.orders"
    else if relationId = 16385 then "public.customers"
    else if relationId = 16400 then "public.order_id_seq"
    else if relationId = 16600 then "sales.leads"
    else "public.local_notes"
  RoleSpecString := fun spec =>
    match spec.roletype with
    | .ROLESPEC_CSTRING => spec.rolename.getD ""
    | .ROLESPEC_CURRENT_ROLE => "CURRENT_ROLE"
    | .ROLESPEC_CURRENT_USER => "CURRENT_USER"
    | .ROLESPEC_SESSION_USER => "SESSION_USER"
    | .ROLESPEC_PUBLIC => "PUBLIC"
  DDLTaskList := fun relationId commandString =>
    [{ anchorShardId := 100 * relationId, queryString := commandString },
     { anchorShardId := 100 * relationId + 1, queryString := commandString }]
  isCoordinator := true

/-- The same catalog, seen from a worker node. -/
def sampleWorker : Collaborators :=
  { sampleCluster with isCoordinator := false }

/-- A named role as grantee. -/
def namedRole (rolename : String) : RoleSpec :=
  { roletype := .ROLESPEC_CSTRING, rolename := some rolename }

/-- A privilege without columns. -/
def plainPriv (priv_name : String) : AccessPriv :=
  { priv_name := some priv_name, cols := [] }

/-- The statement `REVOKE ALL ON public.orders FROM bob CASCADE`. -/
def revokeAllFromBob : GrantStmt :=
  { is_grant := false, targtype := .ACL_TARGET_OBJECT, objtype := .OBJECT_TABLE,
    objects := ["public.orders"], privileges := [], grantees := [namedRole "bob"],
    grant_option := false, behavior := .DROP_CASCADE }

/-- The statement `GRANT SELECT ON public.orders TO alice WITH GRANT OPTION`. -/
def grantSelectToAlice : GrantStmt :=
  { is_grant := true, targtype := .ACL_TARGET_OBJECT, objtype := .OBJECT_TABLE,
    objects := ["public.orders"], privileges := [plainPriv "SELECT"],
    grantees := [namedRole "alice"], grant_option := true, behavior := .DROP_RESTRICT }

/-- A column privilege `UPDATE (a, b)`. -/
def updateOfAB : AccessPriv :=
  { priv_name := some "UPDATE", cols := ["a", "b"] }

/-- The nameless entry the parser builds for ALL PRIVILEGES. -/
def allPrivileges : AccessPriv :=
  { priv_name := none, cols := [] }

/-- A grant on a sequence, run on a worker, with a name that does not resolve and a nameless
privilege in second position. -/
def grantOnSequence : GrantStmt :=
  { is_grant := true, targtype := .ACL_TARGET_OBJECT, objtype := .OBJECT_SEQUENCE,
    objects := ["public.missing"], privileges := [plainPriv "USAGE", allPrivileges],
    grantees := [namedRole "alice"], grant_option := false, behavior := .DROP_RESTRICT }

/-- A grant on the local table only, with a nameless privilege in second position. -/
def grantOnLocalTable : GrantStmt :=
  { is_grant := true, targtype := .ACL_TARGET_OBJECT, objtype := .OBJECT_TABLE,
    objects := ["public.local_notes"], privileges := [plainPriv "SELECT", allPrivileges],
    grantees := [namedRole "alice"], grant_option := false, behavior := .DROP_RESTRICT }

/-- A grant that names a distributed table and then a table that does not exist. -/
def grantOnMissingTable : GrantStmt :=
  { is_grant := true, targtype := .ACL_TARGET_OBJECT, objtype := .OBJECT_TABLE,
    objects := ["public.orders", "public.missing"], privileges := [plainPriv "SELECT"],
    grantees := [namedRole "alice"], grant_option := false, behavior := .DROP_RESTRICT }

/-- The statement `GRANT SELECT ON ALL TABLES IN SCHEMA public TO alice`. -/
def grantAllInPublic : GrantStmt :=
  { is_grant := true, targtype := .ACL_TARGET_ALL_IN_SCHEMA, objtype := .OBJECT_TABLE,
    objects := ["public"], privileges := [plainPriv "SELECT"],
    grantees := [namedRole "alice"], grant_option := false, behavior := .DROP_RESTRICT }

/-- A revoke on a distributed table whose privilege list has a nameless entry in second
position. -/
def revokeMalformed : GrantStmt :=
  { is_grant := false, targtype := .ACL_TARGET_OBJECT, objtype := .OBJECT_TABLE,
    objects := ["public.orders"], privileges := [plainPriv "SELECT", allPrivileges],
    grantees := [namedRole "bob"], grant_option := false, behavior := .DROP_RESTRICT }


/-- A grant that names the distributed table `public.orders` twice. -/
def grantOrdersTwice : GrantStmt :=
  { is_grant := true, targtype := .ACL_TARGET_OBJECT, objtype := .OBJECT_TABLE,
    objects := ["public.orders", "public.orders"], privileges := [plainPriv "SELECT"],
    grantees := [namedRole "alice"], grant_option := false, behavior := .DROP_RESTRICT }

/-- A grant on a distributed table, the local table and the distributed sequence, in that
order. -/
def grantOnTableAndSequence : GrantStmt :=
  { is_grant := true, targtype := .ACL_TARGET_OBJECT, objtype := .OBJECT_TABLE,
    objects := ["public.orders", "public.local_notes", "public.order_id_seq"],
    privileges := [plainPriv "SELECT"], grantees := [namedRole "alice"],
    grant_option := false, behavior := .DROP_RESTRICT }

/-- A grant on all tables of schema `public`, with the schema named twice. -/
def grantAllInPublicTwice : GrantStmt :=
  { grantAllInPublic with objects := ["public", "public"] }

/-- The sample catalog with a relation-name deparser that returns the empty text. -/
def blankNameCluster : Collaborators :=
  { sampleCluster with generate_relation_name := fun _ => "" }

/-- A grant on `public.orders` with no grantee. -/
def grantToNobody : GrantStmt :=
  { grantSelectToAlice with grantees := [], grant_option := false }

/-- A grant that names the local table twice and then the distributed table `public.orders`. -/
def grantLocalTwiceAndOrders : GrantStmt :=
  { is_grant := true, targtype := .ACL_TARGET_OBJECT, objtype := .OBJECT_TABLE,
    objects := ["public.local_notes", "public.local_notes", "public.orders"],
    privileges := [plainPriv "SELECT"], grantees := [namedRole "alice"],
    grant_option := false, behavior := .DROP_RESTRICT }

/-! ## The loops in closed form -/

/-- The grantee loop appends the role texts, separated by `", "` from the second one on. -/
theorem granteeLoop_go (env : Collaborators) (specs : List RoleSpec) (granteesString : String) :
    PreprocessGrantStmt.granteeLoop env specs false granteesString =
      String.intercalate.go granteesString ", " (specs.map env.RoleSpecString) := by
  induction specs generalizing granteesString with
  | nil => rfl
  | cons spec rest ih =>
    simp [PreprocessGrantStmt.granteeLoop, ih, String.intercalate.go, String.append_assoc]

/-- The grantee text is the role texts joined with `", "`. -/
theorem granteeLoop_eq (env : Collaborators) (specs : List RoleSpec) :
    PreprocessGrantStmt.granteeLoop env specs true "" =
      ", ".intercalate (specs.map env.RoleSpecString) := by
  cases specs with
  | nil => rfl
  | cons spec rest =>
    simp [PreprocessGrantStmt.granteeLoop, granteeLoop_go, String.intercalate]

/-- For a GRANT, every iteration entered with an empty `ddlString` appends one job whose command
is the single GRANT rendering. -/
theorem tableLoop_grant (env : Collaborators) (grantStmt : GrantStmt)
    (privsString granteesString : String) (hgrant : grantStmt.is_grant = true)
    (tableIdList : List Oid) (targetString : String) (ddlJobs : List DDLJob) :
    PreprocessGrantStmt.tableLoop env grantStmt privsString granteesString tableIdList
        targetString "" ddlJobs =
      ddlJobs ++ tableIdList.map (fun relationId =>
        { targetObjectAddress := ObjectAddressSet RelationRelationId relationId
          metadataSyncCommand := "GRANT " ++ privsString ++ " ON " ++
            env.generate_relation_name relationId ++ " TO " ++ granteesString ++
            (if grantStmt.grant_option then " WITH GRANT OPTION" else "")
          taskList :=
            if env.IsCitusTable relationId then
              env.DDLTaskList relationId ("GRANT " ++ privsString ++ " ON " ++
                env.generate_relation_name relationId ++ " TO " ++ granteesString ++
                (if grantStmt.grant_option then " WITH GRANT OPTION" else ""))
            else [] }) := by
  induction tableIdList generalizing targetString ddlJobs with
  | nil => simp [PreprocessGrantStmt.tableLoop]
  | cons relationId rest ih =>
    simp [PreprocessGrantStmt.tableLoop, hgrant, ih, String.append_assoc]

/-- For a REVOKE, every iteration entered with an empty `ddlString` appends one job whose command
holds the REVOKE rendering twice, the second one followed by the cascade clause. -/
theorem tableLoop_revoke (env : Collaborators) (grantStmt : GrantStmt)
    (privsString granteesString : String) (hrevoke : grantStmt.is_grant = false)
    (tableIdList : List Oid) (targetString : String) (ddlJobs : List DDLJob) :
    PreprocessGrantStmt.tableLoop env grantStmt privsString granteesString tableIdList
        targetString "" ddlJobs =
      ddlJobs ++ tableIdList.map (fun relationId =>
        { targetObjectAddress := ObjectAddressSet RelationRelationId relationId
          metadataSyncCommand :=
            "REVOKE " ++ (if grantStmt.grant_option then "GRANT OPTION FOR " else "") ++
              privsString ++ " ON " ++ env.generate_relation_name relationId ++ " FROM " ++
              granteesString ++
            "REVOKE " ++ (if grantStmt.grant_option then "GRANT OPTION FOR " else "") ++
              privsString ++ " ON " ++ env.generate_relation_name relationId ++ " FROM " ++
              granteesString ++
            (if grantStmt.behavior = .DROP_CASCADE then " CASCADE" else " RESTRICT")
          taskList :=
            if env.IsCitusTable relationId then
              env.DDLTaskList relationId
                ("REVOKE " ++ (if grantStmt.grant_option then "GRANT OPTION FOR " else "") ++
                  privsString ++ " ON " ++ env.generate_relation_name relationId ++ " FROM " ++
                  granteesString ++
                "REVOKE " ++ (if grantStmt.grant_option then "GRANT OPTION FOR " else "") ++
                  privsString ++ " ON " ++ env.generate_relation_name relationId ++ " FROM " ++
                  granteesString ++
                (if grantStmt.behavior = .DROP_CASCADE then " CASCADE" else " RESTRICT"))
            else [] }) := by
  induction tableIdList generalizing targetString ddlJobs with
  | nil => simp [PreprocessGrantStmt.tableLoop]
  | cons relationId rest ih =>
    by_cases hb : grantStmt.behavior = .DROP_CASCADE <;>
      simp [PreprocessGrantStmt.tableLoop, hrevoke, ih, hb, String.append_assoc]

/-- Once the relation list is known to be non-empty, the node is the coordinator and the
privileges deparse, the result is the job list of the relation loop. -/
theorem PreprocessGrantStmt_of_targets (env : Collaborators) (grantStmt : GrantStmt)
    (tableIdList : List Oid) (privsString : String)
    (htable : grantStmt.objtype = .OBJECT_TABLE)
    (hlist : CollectGrantTableIdList env grantStmt = .ok tableIdList)
    (hne : tableIdList ≠ []) (hcoord : env.isCoordinator = true)
    (hprivs : PreprocessGrantStmt.deparsePrivileges grantStmt.privileges = .ok privsString) :
    PreprocessGrantStmt env grantStmt =
      .ok (PreprocessGrantStmt.tableLoop env grantStmt privsString
        (", ".intercalate (grantStmt.grantees.map env.RoleSpecString)) tableIdList "" "" []) := by
  have hemp : tableIdList.isEmpty = false := by
    cases tableIdList with
    | nil => exact absurd rfl hne
    | cons a l => rfl
  simp [PreprocessGrantStmt, htable, hlist, hemp, EnsureCoordinator, hcoord, hprivs,
    granteeLoop_eq]

/-- From the second entry on, named privileges are appended after a `", "` each. -/
theorem privilegeLoop_named (privs : List AccessPriv)
    (hnamed : ∀ priv ∈ privs, priv.priv_name ≠ none) (privsString : String) :
    PreprocessGrantStmt.privilegeLoop privs false privsString =
      .ok (String.intercalate.go privsString ", " (privs.map privilegeText)) := by
  induction privs generalizing privsString with
  | nil => rfl
  | cons priv rest ih =>
    have hrest : ∀ q ∈ rest, q.priv_name ≠ none := fun q hq =>
      hnamed q (List.mem_cons_of_mem _ hq)
    obtain ⟨name, hname⟩ : ∃ name, priv.priv_name = some name :=
      Option.ne_none_iff_exists'.mp (hnamed priv (List.mem_cons_self _ _))
    by_cases hcols : priv.cols = [] <;>
      simp [PreprocessGrantStmt.privilegeLoop, hname, hcols, ih hrest, String.intercalate.go,
        privilegeText, String.append_assoc]

/-- A non-empty privilege list whose entries after the first are all named deparses to the
texts of its entries joined with `", "`. -/
theorem deparsePrivileges_cons (first : AccessPriv) (rest : List AccessPriv)
    (hnamed : ∀ priv ∈ rest, priv.priv_name ≠ none) :
    PreprocessGrantStmt.deparsePrivileges (first :: rest) =
      .ok (", ".intercalate ((first :: rest).map privilegeText)) := by
  cases hfirst : first.priv_name <;> by_cases hcols : first.cols = [] <;>
    simp [PreprocessGrantStmt.deparsePrivileges, PreprocessGrantStmt.privilegeLoop, hfirst,
      hcols, privilegeLoop_named _ hnamed, String.intercalate, privilegeText]

/-- A nameless entry after the first position aborts the privilege loop. -/
theorem privilegeLoop_nameless (privs : List AccessPriv)
    (hnameless : ∃ priv ∈ privs, priv.priv_name = none) (privsString : String) :
    PreprocessGrantStmt.privilegeLoop privs false privsString =
      .error (.MalformedPrivilegeList "Cannot parse GRANT/REVOKE privileges") := by
  induction privs generalizing privsString with
  | nil => simp at hnameless
  | cons priv rest ih =>
    cases hname : priv.priv_name with
    | none => simp [PreprocessGrantStmt.privilegeLoop, hname]
    | some name =>
      have hrest : ∃ q ∈ rest, q.priv_name = none := by
        obtain ⟨q, hq, hqn⟩ := hnameless
        rcases List.mem_cons.mp hq with rfl | hq
        · rw [hname] at hqn; cases hqn
        · exact ⟨q, hq, hqn⟩
      simp [PreprocessGrantStmt.privilegeLoop, hname, ih hrest]

/-- A privilege list with a nameless entry after the first position does not deparse. -/
theorem deparsePrivileges_nameless (first : AccessPriv) (rest : List AccessPriv)
    (hnameless : ∃ priv ∈ rest, priv.priv_name = none) :
    PreprocessGrantStmt.deparsePrivileges (first :: rest) =
      .error (.MalformedPrivilegeList "Cannot parse GRANT/REVOKE privileges") := by
  cases hfirst : first.priv_name <;>
    simp [PreprocessGrantStmt.deparsePrivileges, PreprocessGrantStmt.privilegeLoop, hfirst,
      privilegeLoop_nameless _ hnameless]

/-! ## The resolver in closed form -/

/-- When every name resolves, the object loop keeps the resolved relations that are a Citus table
or a distributed object, in statement order. -/
theorem objectLoop_resolved (env : Collaborators) (objects : List String)
    (hres : ∀ relvar ∈ objects, env.RangeVarGetRelid relvar ≠ none) (grantTableList : List Oid) :
    CollectGrantTableIdList.objectLoop env objects grantTableList =
      .ok (grantTableList ++ (objects.filterMap env.RangeVarGetRelid).filter (fun relationId =>
        env.IsCitusTable relationId ||
          env.IsAnyObjectDistributed (ObjectAddressSet RelationRelationId relationId))) := by
  induction objects generalizing grantTableList with
  | nil => simp [CollectGrantTableIdList.objectLoop]
  | cons relvar rest ih =>
    have hrest : ∀ r ∈ rest, env.RangeVarGetRelid r ≠ none := fun r hr =>
      hres r (List.mem_cons_of_mem _ hr)
    obtain ⟨relationId, hrel⟩ : ∃ relationId, env.RangeVarGetRelid relvar = some relationId :=
      Option.ne_none_iff_exists'.mp (hres relvar (List.mem_cons_self _ _))
    cases hcitus : env.IsCitusTable relationId <;>
      cases hdist : env.IsAnyObjectDistributed (ObjectAddressSet RelationRelationId relationId) <;>
      simp [CollectGrantTableIdList.objectLoop, hrel, hcitus, hdist, ih hrest,
        List.filterMap_cons, List.filter_cons]

/-- A name that does not resolve aborts the object loop. -/
theorem objectLoop_unresolved (env : Collaborators) (objects : List String)
    (hmiss : ∃ relvar ∈ objects, env.RangeVarGetRelid relvar = none)
    (grantTableList : List Oid) :
    CollectGrantTableIdList.objectLoop env objects grantTableList = .error .NotFound := by
  induction objects generalizing grantTableList with
  | nil => simp at hmiss
  | cons relvar rest ih =>
    cases hrel : env.RangeVarGetRelid relvar with
    | none => simp [CollectGrantTableIdList.objectLoop, hrel]
    | some relationId =>
      have hrest : ∃ r ∈ rest, env.RangeVarGetRelid r = none := by
        obtain ⟨r, hr, hrn⟩ := hmiss
        rcases List.mem_cons.mp hr with rfl | hr
        · rw [hrel] at hrn; cases hrn
        · exact ⟨r, hr, hrn⟩
      cases hcitus : env.IsCitusTable relationId <;>
        cases hdist :
          env.IsAnyObjectDistributed (ObjectAddressSet RelationRelationId relationId) <;>
        simp [CollectGrantTableIdList.objectLoop, hrel, hcitus, hdist, ih hrest]

/-- Membership in a list grown by `list_append_unique_oid`. -/
theorem mem_foldl_append_unique (oids : List Oid) (list : List Oid) (x : Oid) :
    x ∈ oids.foldl list_append_unique_oid list ↔ x ∈ list ∨ x ∈ oids := by
  induction oids generalizing list with
  | nil => simp
  | cons oid rest ih =>
    rw [List.foldl_cons, ih]
    by_cases hmem : oid ∈ list
    · simp only [list_append_unique_oid, hmem, if_true, List.mem_cons]
      constructor
      · rintro (h | h)
        · exact Or.inl h
        · exact Or.inr (Or.inr h)
      · rintro (h | h | h)
        · exact Or.inl h
        · exact Or.inl (h ▸ hmem)
        · exact Or.inr h
    · simp only [list_append_unique_oid, hmem, if_false, List.mem_append, List.mem_singleton,
        List.mem_cons]
      tauto

/-- When every schema name resolves, the namespace loop returns the resolved oids, each once. -/
theorem namespaceLoop_resolved (env : Collaborators) (objects : List String)
    (hres : ∀ nspname ∈ objects, env.get_namespace_oid nspname ≠ none)
    (namespaceOidList : List Oid) :
    CollectGrantTableIdList.namespaceLoop env objects namespaceOidList =
      .ok ((objects.filterMap env.get_namespace_oid).foldl list_append_unique_oid
        namespaceOidList) := by
  induction objects generalizing namespaceOidList with
  | nil => simp [CollectGrantTableIdList.namespaceLoop]
  | cons nspname rest ih =>
    have hrest : ∀ r ∈ rest, env.get_namespace_oid r ≠ none := fun r hr =>
      hres r (List.mem_cons_of_mem _ hr)
    obtain ⟨namespaceOid, hns⟩ : ∃ namespaceOid, env.get_namespace_oid nspname = some namespaceOid :=
      Option.ne_none_iff_exists'.mp (hres nspname (List.mem_cons_self _ _))
    simp [CollectGrantTableIdList.namespaceLoop, hns, ih hrest, List.filterMap_cons]

/-- The Citus-table loop is a filter on the schema of each relation. -/
theorem citusTableLoop_eq (env : Collaborators) (namespaceOidList : List Oid)
    (citusTableIdList : List Oid) (grantTableList : List Oid) :
    CollectGrantTableIdList.citusTableLoop env namespaceOidList citusTableIdList grantTableList =
      grantTableList ++ citusTableIdList.filter (fun relationId =>
        decide (env.get_rel_namespace relationId ∈ namespaceOidList)) := by
  induction citusTableIdList generalizing grantTableList with
  | nil => simp [CollectGrantTableIdList.citusTableLoop]
  | cons relationId rest ih =>
    by_cases hmem : env.get_rel_namespace relationId ∈ namespaceOidList <;>
      simp [CollectGrantTableIdList.citusTableLoop, hmem, ih, List.filter_cons]

/-- In object mode the resolver is the object loop. -/
theorem CollectGrantTableIdList_object (env : Collaborators) (grantStmt : GrantStmt)
    (htable : grantStmt.objtype = .OBJECT_TABLE)
    (hmode : grantStmt.targtype = .ACL_TARGET_OBJECT) :
    CollectGrantTableIdList env grantStmt =
      CollectGrantTableIdList.objectLoop env grantStmt.objects [] := by
  simp [CollectGrantTableIdList, htable, hmode]

/-- In schema mode with resolvable schema names the resolver returns the Citus tables whose
schema is one of the named schemas, in catalog order. -/
theorem CollectGrantTableIdList_schema (env : Collaborators) (grantStmt : GrantStmt)
    (htable : grantStmt.objtype = .OBJECT_TABLE)
    (hmode : grantStmt.targtype = .ACL_TARGET_ALL_IN_SCHEMA)
    (hres : ∀ nspname ∈ grantStmt.objects, env.get_namespace_oid nspname ≠ none) :
    CollectGrantTableIdList env grantStmt =
      .ok (env.CitusTableTypeIdList.filter (fun relationId =>
        decide (env.get_rel_namespace relationId ∈
          grantStmt.objects.filterMap env.get_namespace_oid))) := by
  simp [CollectGrantTableIdList, htable, hmode, namespaceLoop_resolved env _ hres,
    citusTableLoop_eq, mem_foldl_append_unique]

/-- A table request that is neither in object mode nor in schema mode resolves to nothing. -/
theorem CollectGrantTableIdList_defaults (env : Collaborators) (grantStmt : GrantStmt)
    (hmode : grantStmt.targtype = .ACL_TARGET_DEFAULTS) :
    CollectGrantTableIdList env grantStmt = .ok [] := by
  simp [CollectGrantTableIdList, hmode]

/-- An empty relation list ends the call with no job. -/
theorem PreprocessGrantStmt_of_no_target (env : Collaborators) (grantStmt : GrantStmt)
    (hlist : CollectGrantTableIdList env grantStmt = .ok []) :
    PreprocessGrantStmt env grantStmt = .ok [] := by
  by_cases htable : grantStmt.objtype = .OBJECT_TABLE <;>
    simp [PreprocessGrantStmt, htable, hlist]

/-- An error of the resolver is the error of the call. -/
theorem PreprocessGrantStmt_of_resolver_error (env : Collaborators) (grantStmt : GrantStmt)
    (e : GrantError) (htable : grantStmt.objtype = .OBJECT_TABLE)
    (hlist : CollectGrantTableIdList env grantStmt = .error e) :
    PreprocessGrantStmt env grantStmt = .error e := by
  simp [PreprocessGrantStmt, htable, hlist]

/-- With a non-empty relation list on a node that is not the coordinator, the call is aborted by
`EnsureCoordinator`. -/
theorem PreprocessGrantStmt_of_worker (env : Collaborators) (grantStmt : GrantStmt)
    (tableIdList : List Oid) (htable : grantStmt.objtype = .OBJECT_TABLE)
    (hlist : CollectGrantTableIdList env grantStmt = .ok tableIdList)
    (hne : tableIdList ≠ []) (hworker : env.isCoordinator = false) :
    PreprocessGrantStmt env grantStmt = .error .NotCoordinator := by
  have hemp : tableIdList.isEmpty = false := by
    cases tableIdList with
    | nil => exact absurd rfl hne
    | cons a l => rfl
  simp [PreprocessGrantStmt, htable, hlist, hemp, EnsureCoordinator, hworker]

/-- Every iteration entered with an empty `ddlString` appends one job: the relation address, a
command that depends on the relation only, and the tasks planned for that command when the
relation is a Citus table. -/
theorem tableLoop_jobs (env : Collaborators) (grantStmt : GrantStmt)
    (privsString granteesString : String) :
    ∃ command : Oid → String, ∀ (tableIdList : List Oid) (targetString : String)
        (ddlJobs : List DDLJob),
      PreprocessGrantStmt.tableLoop env grantStmt privsString granteesString tableIdList
          targetString "" ddlJobs =
        ddlJobs ++ tableIdList.map (fun relationId =>
          { targetObjectAddress := ObjectAddressSet RelationRelationId relationId
            metadataSyncCommand := command relationId
            taskList :=
              if env.IsCitusTable relationId then env.DDLTaskList relationId (command relationId)
              else [] }) := by
  cases hgrant : grantStmt.is_grant with
  | true => exact ⟨_, tableLoop_grant env grantStmt privsString granteesString hgrant⟩
  | false => exact ⟨_, tableLoop_revoke env grantStmt privsString granteesString hgrant⟩

/-- A schema name that does not resolve aborts the namespace loop. -/
theorem namespaceLoop_unresolved (env : Collaborators) (objects : List String)
    (hmiss : ∃ nspname ∈ objects, env.get_namespace_oid nspname = none)
    (namespaceOidList : List Oid) :
    CollectGrantTableIdList.namespaceLoop env objects namespaceOidList = .error .NotFound := by
  induction objects generalizing namespaceOidList with
  | nil => simp at hmiss
  | cons nspname rest ih =>
    cases hns : env.get_namespace_oid nspname with
    | none => simp [CollectGrantTableIdList.namespaceLoop, hns]
    | some namespaceOid =>
      have hrest : ∃ r ∈ rest, env.get_namespace_oid r = none := by
        obtain ⟨r, hr, hrn⟩ := hmiss
        rcases List.mem_cons.mp hr with rfl | hr
        · rw [hns] at hrn; cases hrn
        · exact ⟨r, hr, hrn⟩
      simp [CollectGrantTableIdList.namespaceLoop, hns, ih hrest]

/-- A privilege list that does not deparse aborts a call that reached the deparse. -/
theorem PreprocessGrantStmt_of_malformed (env : Collaborators) (grantStmt : GrantStmt)
    (tableIdList : List Oid) (e : GrantError) (htable : grantStmt.objtype = .OBJECT_TABLE)
    (hlist : CollectGrantTableIdList env grantStmt = .ok tableIdList)
    (hne : tableIdList ≠ []) (hcoord : env.isCoordinator = true)
    (hprivs : PreprocessGrantStmt.deparsePrivileges grantStmt.privileges = .error e) :
    PreprocessGrantStmt env grantStmt = .error e := by
  have hemp : tableIdList.isEmpty = false := by
    cases tableIdList with
    | nil => exact absurd rfl hne
    | cons a l => rfl
  simp [PreprocessGrantStmt, htable, hlist, hemp, EnsureCoordinator, hcoord, hprivs]

/-- What a successful call went through: the resolver returned a list; either the list and the job
list are empty, or the request is a table request on the coordinator, the privileges deparsed
and the jobs are those of the relation loop. -/
theorem PreprocessGrantStmt_ok_inv (env : Collaborators) (grantStmt : GrantStmt)
    (ddlJobs : List DDLJob) (hjobs : PreprocessGrantStmt env grantStmt = .ok ddlJobs) :
    ∃ tableIdList, CollectGrantTableIdList env grantStmt = .ok tableIdList ∧
      ((tableIdList = [] ∧ ddlJobs = []) ∨
        (tableIdList ≠ [] ∧ grantStmt.objtype = .OBJECT_TABLE ∧ env.isCoordinator = true ∧
          ∃ privsString,
            PreprocessGrantStmt.deparsePrivileges grantStmt.privileges = .ok privsString ∧
            ddlJobs = PreprocessGrantStmt.tableLoop env grantStmt privsString
              (", ".intercalate (grantStmt.grantees.map env.RoleSpecString))
              tableIdList "" "" [])) := by
  by_cases htable : grantStmt.objtype = .OBJECT_TABLE
  · cases hlist : CollectGrantTableIdList env grantStmt with
    | error e =>
      rw [PreprocessGrantStmt_of_resolver_error env grantStmt e htable hlist] at hjobs
      cases hjobs
    | ok tableIdList =>
      refine ⟨tableIdList, rfl, ?_⟩
      by_cases hne : tableIdList = []
      · subst hne
        rw [PreprocessGrantStmt_of_no_target env grantStmt hlist] at hjobs
        cases hjobs
        exact Or.inl ⟨rfl, rfl⟩
      · cases hcoord : env.isCoordinator with
        | false =>
          rw [PreprocessGrantStmt_of_worker env grantStmt tableIdList htable hlist hne hcoord]
            at hjobs
          cases hjobs
        | true =>
          cases hprivs : PreprocessGrantStmt.deparsePrivileges grantStmt.privileges with
          | error e =>
            rw [PreprocessGrantStmt_of_malformed env grantStmt tableIdList e htable hlist hne
              hcoord hprivs] at hjobs
            cases hjobs
          | ok privsString =>
            rw [PreprocessGrantStmt_of_targets env grantStmt tableIdList privsString htable
              hlist hne hcoord hprivs] at hjobs
            cases hjobs
            exact Or.inr ⟨hne, htable, rfl, privsString, rfl, rfl⟩
  · have hnoop : PreprocessGrantStmt env grantStmt = .ok [] := by
      simp [PreprocessGrantStmt, htable]
    rw [hnoop] at hjobs
    cases hjobs
    exact ⟨[], by simp [CollectGrantTableIdList, htable], Or.inl ⟨rfl, rfl⟩⟩

/-- The jobs of a successful call, relation by relation: the relation address, a command that
depends on the relation only, and the tasks planned for that command when the relation is a
Citus table. -/
theorem PreprocessGrantStmt_ok_jobs (env : Collaborators) (grantStmt : GrantStmt)
    (ddlJobs : List DDLJob) (hjobs : PreprocessGrantStmt env grantStmt = .ok ddlJobs) :
    ∃ tableIdList, CollectGrantTableIdList env grantStmt = .ok tableIdList ∧
      ∃ command : Oid → String, ddlJobs = tableIdList.map (fun relationId =>
        { targetObjectAddress := ObjectAddressSet RelationRelationId relationId
          metadataSyncCommand := command relationId
          taskList :=
            if env.IsCitusTable relationId then env.DDLTaskList relationId (command relationId)
            else [] }) := by
  obtain ⟨tableIdList, hlist, hcase⟩ := PreprocessGrantStmt_ok_inv env grantStmt ddlJobs hjobs
  refine ⟨tableIdList, hlist, ?_⟩
  rcases hcase with ⟨hnil, hjobsnil⟩ | ⟨_, _, _, privsString, _, hloop⟩
  · subst hnil
    subst hjobsnil
    exact ⟨fun _ => "", rfl⟩
  · obtain ⟨command, hcommand⟩ := tableLoop_jobs env grantStmt privsString
      (", ".intercalate (grantStmt.grantees.map env.RoleSpecString))
    exact ⟨command, by rw [hloop, hcommand]; simp⟩

/-! ## Command rendering -/

/-- C1 (code defect): the claim says a revoke is rendered once, as
`REVOKE <option><privileges> ON <target> FROM <grantees><cascade>`. The code appends the REVOKE
text twice to `ddlString` before the cascade clause: for `REVOKE ALL ON public.orders FROM bob
CASCADE` on the coordinator the command of the job is the doubled text, not the claimed one. -/
theorem revoke_command_rendered_twice :
    (PreprocessGrantStmt sampleCluster revokeAllFromBob).map
        (List.map DDLJob.metadataSyncCommand) =
      .ok ["REVOKE ALL ON public.orders FROM bobREVOKE ALL ON public.orders FROM bob CASCADE"] ∧
    (PreprocessGrantStmt sampleCluster revokeAllFromBob).map
        (List.map DDLJob.metadataSyncCommand) ≠
      .ok ["REVOKE ALL ON public.orders FROM bob CASCADE"] := by
  have h : (PreprocessGrantStmt sampleCluster revokeAllFromBob).map
        (List.map DDLJob.metadataSyncCommand) =
      .ok ["REVOKE ALL ON public.orders FROM bobREVOKE ALL ON public.orders FROM bob CASCADE"] :=
    rfl
  refine ⟨h, ?_⟩
  rw [h]
  intro hh
  injection hh with hh
  revert hh
  decide

/-- C2: for a grant on tables that resolves to the non-empty relation list `tableIdList`, on the
coordinator and with privileges that deparse to `privsString`, the call succeeds and the
commands of its jobs are, relation by relation, `GRANT <privileges> ON <target> TO <grantees>`,
followed by ` WITH GRANT OPTION` exactly when `grant_option` is set. -/
theorem grant_command_rendering (env : Collaborators) (grantStmt : GrantStmt)
    (tableIdList : List Oid) (privsString : String)
    (htable : grantStmt.objtype = .OBJECT_TABLE)
    (hgrant : grantStmt.is_grant = true)
    (hlist : CollectGrantTableIdList env grantStmt = .ok tableIdList)
    (hne : tableIdList ≠ []) (hcoord : env.isCoordinator = true)
    (hprivs : PreprocessGrantStmt.deparsePrivileges grantStmt.privileges = .ok privsString) :
    ∃ ddlJobs, PreprocessGrantStmt env grantStmt = .ok ddlJobs ∧
      ddlJobs.map DDLJob.metadataSyncCommand =
        tableIdList.map (fun relationId =>
          "GRANT " ++ privsString ++ " ON " ++ env.generate_relation_name relationId ++ " TO " ++
            ", ".intercalate (grantStmt.grantees.map env.RoleSpecString) ++
            (if grantStmt.grant_option then " WITH GRANT OPTION" else "")) := by
  refine ⟨_, PreprocessGrantStmt_of_targets env grantStmt tableIdList privsString htable hlist
    hne hcoord hprivs, ?_⟩
  rw [tableLoop_grant env grantStmt _ _ hgrant]
  simp [List.map_map, Function.comp_def]

/-- C2 at `GRANT SELECT ON public.orders TO alice WITH GRANT OPTION`. -/
theorem grant_command_rendering_witness :
    CollectGrantTableIdList sampleCluster grantSelectToAlice = .ok [16384] ∧
    PreprocessGrantStmt.deparsePrivileges grantSelectToAlice.privileges = .ok "SELECT" ∧
    ∃ ddlJobs, PreprocessGrantStmt sampleCluster grantSelectToAlice = .ok ddlJobs ∧
      ddlJobs.map DDLJob.metadataSyncCommand =
        ["GRANT SELECT ON public.orders TO alice WITH GRANT OPTION"] :=
  ⟨rfl, rfl, grant_command_rendering sampleCluster grantSelectToAlice [16384] "SELECT"
    rfl rfl rfl (by decide) rfl rfl⟩

/-- C3: the privilege text is `ALL` for the empty privilege list; for a non-empty list of named
privileges without columns it is the names joined with `", "` in list order (`SELECT, INSERT`
for SELECT and INSERT); a nameless first entry contributes `ALL`. -/
theorem privilege_text_rendering :
    PreprocessGrantStmt.deparsePrivileges [] = .ok "ALL" ∧
    (∀ (name : String) (names : List String),
      PreprocessGrantStmt.deparsePrivileges ((name :: names).map plainPriv) =
        .ok (", ".intercalate (name :: names))) ∧
    PreprocessGrantStmt.deparsePrivileges [plainPriv "SELECT", plainPriv "INSERT"] =
      .ok "SELECT, INSERT" ∧
    (∀ names : List String,
      PreprocessGrantStmt.deparsePrivileges (allPrivileges :: names.map plainPriv) =
        .ok (", ".intercalate ("ALL" :: names))) := by
  have hplain : ∀ names : List String, ∀ priv ∈ names.map plainPriv, priv.priv_name ≠ none := by
    intro names priv hpriv
    obtain ⟨name, _, rfl⟩ := List.mem_map.mp hpriv
    simp [plainPriv]
  have htext : ∀ names : List String, (names.map plainPriv).map privilegeText = names := by
    intro names
    induction names with
    | nil => rfl
    | cons name rest ih =>
      simp only [List.map_cons, ih]
      simp [privilegeText, plainPriv]
  refine ⟨rfl, ?_, rfl, ?_⟩
  · intro name names
    rw [List.map_cons, deparsePrivileges_cons _ _ (hplain names), ← List.map_cons, htext]
  · intro names
    rw [deparsePrivileges_cons _ _ (hplain names), List.map_cons, htext]
    simp [privilegeText, allPrivileges]

/-- C4: in a privilege list whose entries after the first are all named, every entry is rendered
as its name (`ALL` for a nameless first entry), immediately followed, when it has columns, by
the parenthesized column names joined with `", "`; the entries are joined with `", "`. -/
theorem privilege_with_columns_rendering (first : AccessPriv) (rest : List AccessPriv)
    (hnamed : ∀ priv ∈ rest, priv.priv_name ≠ none) :
    PreprocessGrantStmt.deparsePrivileges (first :: rest) =
      .ok (", ".intercalate ((first :: rest).map (fun priv =>
        priv.priv_name.getD "ALL" ++
          (if priv.cols = [] then "" else "(" ++ ", ".intercalate priv.cols ++ ")")))) := by
  rw [deparsePrivileges_cons first rest hnamed]
  have hfun : privilegeText = fun priv : AccessPriv =>
      priv.priv_name.getD "ALL" ++
        (if priv.cols = [] then "" else "(" ++ ", ".intercalate priv.cols ++ ")") := by
    funext priv
    simp [privilegeText, AppendColumnNameList]
  rw [hfun]

/-- C4 at `UPDATE (a, b)`, alone and after `SELECT`. -/
theorem privilege_with_columns_rendering_witness :
    (∀ priv ∈ [updateOfAB], priv.priv_name ≠ none) ∧
    PreprocessGrantStmt.deparsePrivileges [plainPriv "SELECT", updateOfAB] =
      .ok "SELECT, UPDATE(a, b)" ∧
    PreprocessGrantStmt.deparsePrivileges [updateOfAB] = .ok "UPDATE(a, b)" :=
  ⟨by simp [updateOfAB],
   privilege_with_columns_rendering (plainPriv "SELECT") [updateOfAB] (by simp [updateOfAB]),
   privilege_with_columns_rendering updateOfAB [] (by simp)⟩

/-! ## Requests that plan nothing -/

/-- C5: a request whose object kind is not TABLE returns the empty job list and raises no error,
whatever the catalog, the node, the targets, the privileges and the grantees are; the resolver
too returns the empty list for it. -/
theorem non_table_request_is_noop (env : Collaborators) (grantStmt : GrantStmt)
    (hkind : grantStmt.objtype ≠ .OBJECT_TABLE) :
    PreprocessGrantStmt env grantStmt = .ok [] ∧
      CollectGrantTableIdList env grantStmt = .ok [] := by
  constructor
  · simp [PreprocessGrantStmt, hkind]
  · simp [CollectGrantTableIdList, hkind]

/-- C5 on a worker, for a grant on a sequence whose name does not resolve and whose privilege
list is malformed. -/
theorem non_table_request_is_noop_witness :
    grantOnSequence.objtype ≠ .OBJECT_TABLE ∧
    sampleWorker.RangeVarGetRelid "public.missing" = none ∧
    PreprocessGrantStmt.deparsePrivileges grantOnSequence.privileges =
      .error (.MalformedPrivilegeList "Cannot parse GRANT/REVOKE privileges") ∧
    PreprocessGrantStmt sampleWorker grantOnSequence = .ok [] ∧
    CollectGrantTableIdList sampleWorker grantOnSequence = .ok [] :=
  ⟨by decide, rfl, rfl, non_table_request_is_noop sampleWorker grantOnSequence (by decide)⟩

/-- C6: a table request in object mode in which every name resolves to a relation that is
neither a Citus table nor a distributed object returns the empty job list and raises no error,
whatever the node and the privilege list are. -/
theorem non_distributed_targets_are_noop (env : Collaborators) (grantStmt : GrantStmt)
    (htable : grantStmt.objtype = .OBJECT_TABLE)
    (hmode : grantStmt.targtype = .ACL_TARGET_OBJECT)
    (hlocal : ∀ relvar ∈ grantStmt.objects, ∃ relationId,
      env.RangeVarGetRelid relvar = some relationId ∧
      env.IsCitusTable relationId = false ∧
      env.IsAnyObjectDistributed (ObjectAddressSet RelationRelationId relationId) = false) :
    PreprocessGrantStmt env grantStmt = .ok [] := by
  apply PreprocessGrantStmt_of_no_target
  have hres : ∀ relvar ∈ grantStmt.objects, env.RangeVarGetRelid relvar ≠ none := by
    intro relvar hmem
    obtain ⟨relationId, hrel, _⟩ := hlocal relvar hmem
    simp [hrel]
  rw [CollectGrantTableIdList_object env grantStmt htable hmode,
    objectLoop_resolved env _ hres]
  simp only [List.nil_append, Except.ok.injEq, List.filter_eq_nil_iff, List.mem_filterMap]
  rintro relationId ⟨relvar, hmem, hrel⟩
  obtain ⟨relationId2, hrel2, hcitus, hdist⟩ := hlocal relvar hmem
  rw [hrel] at hrel2
  cases hrel2
  simp [hcitus, hdist]

/-- C6 on a worker, for a grant on the local table with a malformed privilege list. -/
theorem non_distributed_targets_are_noop_witness :
    (∀ relvar ∈ grantOnLocalTable.objects, ∃ relationId,
      sampleWorker.RangeVarGetRelid relvar = some relationId ∧
      sampleWorker.IsCitusTable relationId = false ∧
      sampleWorker.IsAnyObjectDistributed (ObjectAddressSet RelationRelationId relationId) =
        false) ∧
    sampleWorker.isCoordinator = false ∧
    PreprocessGrantStmt.deparsePrivileges grantOnLocalTable.privileges =
      .error (.MalformedPrivilegeList "Cannot parse GRANT/REVOKE privileges") ∧
    PreprocessGrantStmt sampleWorker grantOnLocalTable = .ok [] :=
  have hlocal : ∀ relvar ∈ grantOnLocalTable.objects, ∃ relationId,
      sampleWorker.RangeVarGetRelid relvar = some relationId ∧
      sampleWorker.IsCitusTable relationId = false ∧
      sampleWorker.IsAnyObjectDistributed (ObjectAddressSet RelationRelationId relationId) =
        false := by
    intro relvar hmem
    have hrel : relvar = "public.local_notes" := by simpa [grantOnLocalTable] using hmem
    subst hrel
    exact ⟨16390, rfl, rfl, rfl⟩
  ⟨hlocal, rfl, rfl,
    non_distributed_targets_are_noop sampleWorker grantOnLocalTable rfl rfl hlocal⟩

/-! ## Schema mode -/

/-- C7: for a table request in schema mode whose schema names all resolve, on the coordinator and
with privileges that deparse, the call succeeds and the targets of its jobs are the entries of
the Citus-table enumeration whose schema is one of the resolved schemas, in enumeration order;
when the enumeration lists Citus tables only (the catalog agrees with itself), every job carries
the tasks planned for its relation and command. -/
theorem schema_mode_jobs (env : Collaborators) (grantStmt : GrantStmt) (privsString : String)
    (htable : grantStmt.objtype = .OBJECT_TABLE)
    (hmode : grantStmt.targtype = .ACL_TARGET_ALL_IN_SCHEMA)
    (hres : ∀ nspname ∈ grantStmt.objects, env.get_namespace_oid nspname ≠ none)
    (hcoord : env.isCoordinator = true)
    (hprivs : PreprocessGrantStmt.deparsePrivileges grantStmt.privileges = .ok privsString) :
    ∃ ddlJobs, PreprocessGrantStmt env grantStmt = .ok ddlJobs ∧
      ddlJobs.map DDLJob.targetObjectAddress =
        (env.CitusTableTypeIdList.filter (fun relationId =>
          decide (env.get_rel_namespace relationId ∈
            grantStmt.objects.filterMap env.get_namespace_oid))).map
          (ObjectAddressSet RelationRelationId) ∧
      ((∀ relationId ∈ env.CitusTableTypeIdList, env.IsCitusTable relationId = true) →
        ∀ ddlJob ∈ ddlJobs, ddlJob.taskList =
          env.DDLTaskList ddlJob.targetObjectAddress.objectId ddlJob.metadataSyncCommand) := by
  have hlist := CollectGrantTableIdList_schema env grantStmt htable hmode hres
  generalize htab : env.CitusTableTypeIdList.filter (fun relationId =>
    decide (env.get_rel_namespace relationId ∈
      grantStmt.objects.filterMap env.get_namespace_oid)) = tableIdList at hlist ⊢
  by_cases hne : tableIdList = []
  · subst hne
    exact ⟨[], PreprocessGrantStmt_of_no_target env grantStmt hlist, rfl, by simp⟩
  · obtain ⟨command, hloop⟩ := tableLoop_jobs env grantStmt privsString
      (", ".intercalate (grantStmt.grantees.map env.RoleSpecString))
    refine ⟨_, PreprocessGrantStmt_of_targets env grantStmt tableIdList privsString htable hlist
      hne hcoord hprivs, ?_, ?_⟩
    · rw [hloop]
      simp [List.map_map, Function.comp_def]
    · rw [hloop]
      intro hcatalog ddlJob hjob
      simp only [List.nil_append, List.mem_map] at hjob
      obtain ⟨relationId, hmem, rfl⟩ := hjob
      have hcitus : env.IsCitusTable relationId = true := by
        apply hcatalog
        rw [← htab] at hmem
        exact (List.mem_filter.mp hmem).1
      simp [hcitus, ObjectAddressSet]

/-- C7 at `GRANT SELECT ON ALL TABLES IN SCHEMA public TO alice`: schema `public` holds the
distributed tables 16384 and 16385 and the local table 16390; two jobs are planned. -/
theorem schema_mode_jobs_witness :
    (∀ nspname ∈ grantAllInPublic.objects, sampleCluster.get_namespace_oid nspname ≠ none) ∧
    (∀ relationId ∈ sampleCluster.CitusTableTypeIdList,
      sampleCluster.IsCitusTable relationId = true) ∧
    (sampleCluster.get_rel_namespace 16390 = 2200 ∧ sampleCluster.IsCitusTable 16390 = false) ∧
    ∃ ddlJobs, PreprocessGrantStmt sampleCluster grantAllInPublic = .ok ddlJobs ∧
      ddlJobs.map DDLJob.targetObjectAddress =
        [ObjectAddressSet RelationRelationId 16384, ObjectAddressSet RelationRelationId 16385] ∧
      ((∀ relationId ∈ sampleCluster.CitusTableTypeIdList,
          sampleCluster.IsCitusTable relationId = true) →
        ∀ ddlJob ∈ ddlJobs, ddlJob.taskList =
          sampleCluster.DDLTaskList ddlJob.targetObjectAddress.objectId
            ddlJob.metadataSyncCommand) :=
  ⟨by decide, by decide, ⟨rfl, rfl⟩,
    schema_mode_jobs sampleCluster grantAllInPublic "SELECT" rfl rfl (by decide) rfl rfl⟩

/-! ## Errors -/

/-- C8: a table request in object mode with a name that does not resolve fails with `NotFound`
(so no job is returned), whatever the other names resolve to and whatever the node is. -/
theorem unresolved_name_aborts (env : Collaborators) (grantStmt : GrantStmt)
    (htable : grantStmt.objtype = .OBJECT_TABLE)
    (hmode : grantStmt.targtype = .ACL_TARGET_OBJECT)
    (hmiss : ∃ relvar ∈ grantStmt.objects, env.RangeVarGetRelid relvar = none) :
    PreprocessGrantStmt env grantStmt = .error .NotFound := by
  apply PreprocessGrantStmt_of_resolver_error env grantStmt _ htable
  rw [CollectGrantTableIdList_object env grantStmt htable hmode]
  exact objectLoop_unresolved env _ hmiss []

/-- C8 on a worker: the first name is a distributed table, the second one does not resolve. -/
theorem unresolved_name_aborts_witness :
    (∃ relvar ∈ grantOnMissingTable.objects, sampleWorker.RangeVarGetRelid relvar = none) ∧
    (sampleWorker.RangeVarGetRelid "public.orders" = some 16384 ∧
      sampleWorker.IsCitusTable 16384 = true) ∧
    PreprocessGrantStmt sampleWorker grantOnMissingTable = .error .NotFound :=
  ⟨⟨"public.missing", by simp [grantOnMissingTable], rfl⟩, ⟨rfl, rfl⟩,
    unresolved_name_aborts sampleWorker grantOnMissingTable rfl rfl
      ⟨"public.missing", by simp [grantOnMissingTable], rfl⟩⟩

/-- C9: for a table request whose names all resolve, on a node that is not the coordinator, the
resolver returns a list; the call fails with `NotCoordinator` exactly when that list is not
empty, and returns the empty job list without error when it is empty. -/
theorem not_coordinator_iff_eligible (env : Collaborators) (grantStmt : GrantStmt)
    (htable : grantStmt.objtype = .OBJECT_TABLE)
    (hworker : env.isCoordinator = false)
    (hobjects : grantStmt.targtype = .ACL_TARGET_OBJECT →
      ∀ relvar ∈ grantStmt.objects, env.RangeVarGetRelid relvar ≠ none)
    (hschemas : grantStmt.targtype = .ACL_TARGET_ALL_IN_SCHEMA →
      ∀ nspname ∈ grantStmt.objects, env.get_namespace_oid nspname ≠ none) :
    ∃ tableIdList, CollectGrantTableIdList env grantStmt = .ok tableIdList ∧
      (PreprocessGrantStmt env grantStmt = .error .NotCoordinator ↔ tableIdList ≠ []) ∧
      (tableIdList = [] → PreprocessGrantStmt env grantStmt = .ok []) := by
  have hok : ∃ tableIdList, CollectGrantTableIdList env grantStmt = .ok tableIdList := by
    cases hmode : grantStmt.targtype with
    | ACL_TARGET_OBJECT =>
      exact ⟨_, (CollectGrantTableIdList_object env grantStmt htable hmode).trans
        (objectLoop_resolved env _ (hobjects hmode) [])⟩
    | ACL_TARGET_ALL_IN_SCHEMA =>
      exact ⟨_, CollectGrantTableIdList_schema env grantStmt htable hmode (hschemas hmode)⟩
    | ACL_TARGET_DEFAULTS => exact ⟨_, CollectGrantTableIdList_defaults env grantStmt hmode⟩
  obtain ⟨tableIdList, hlist⟩ := hok
  refine ⟨tableIdList, hlist, ?_, ?_⟩
  · constructor
    · intro herr hnil
      subst hnil
      rw [PreprocessGrantStmt_of_no_target env grantStmt hlist] at herr
      cases herr
    · intro hne
      exact PreprocessGrantStmt_of_worker env grantStmt tableIdList htable hlist hne hworker
  · intro hnil
    subst hnil
    exact PreprocessGrantStmt_of_no_target env grantStmt hlist

/-- C9 on the sample worker: the grant on the distributed table `public.orders` fails with
`NotCoordinator`, the grant on the local table returns no job. -/
theorem not_coordinator_iff_eligible_witness :
    (∃ tableIdList, CollectGrantTableIdList sampleWorker grantSelectToAlice = .ok tableIdList ∧
      (PreprocessGrantStmt sampleWorker grantSelectToAlice = .error .NotCoordinator ↔
        tableIdList ≠ []) ∧
      (tableIdList = [] → PreprocessGrantStmt sampleWorker grantSelectToAlice = .ok [])) ∧
    CollectGrantTableIdList sampleWorker grantSelectToAlice = .ok [16384] ∧
    PreprocessGrantStmt sampleWorker grantSelectToAlice = .error .NotCoordinator ∧
    (∃ tableIdList, CollectGrantTableIdList sampleWorker grantOnLocalTable = .ok tableIdList ∧
      (PreprocessGrantStmt sampleWorker grantOnLocalTable = .error .NotCoordinator ↔
        tableIdList ≠ []) ∧
      (tableIdList = [] → PreprocessGrantStmt sampleWorker grantOnLocalTable = .ok [])) ∧
    CollectGrantTableIdList sampleWorker grantOnLocalTable = .ok [] ∧
    PreprocessGrantStmt sampleWorker grantOnLocalTable = .ok [] :=
  ⟨not_coordinator_iff_eligible sampleWorker grantSelectToAlice rfl rfl
      (fun _ => by decide) (fun h => by cases h),
    rfl, rfl,
    not_coordinator_iff_eligible sampleWorker grantOnLocalTable rfl rfl
      (fun _ => by decide) (fun h => by cases h),
    rfl, rfl⟩

/-- C10: when the privilege list has a nameless entry at a position other than the first, the
call never returns a job; for a table request that resolves to a non-empty relation list on the
coordinator it fails with the internal error `Cannot parse GRANT/REVOKE privileges`, for grants
and revokes alike. -/
theorem malformed_privileges_rejected (env : Collaborators) (grantStmt : GrantStmt)
    (i : Nat) (priv : AccessPriv) (hpos : 0 < i)
    (hentry : grantStmt.privileges[i]? = some priv) (hnameless : priv.priv_name = none) :
    (∀ ddlJobs, PreprocessGrantStmt env grantStmt = .ok ddlJobs → ddlJobs = []) ∧
    (∀ tableIdList, grantStmt.objtype = .OBJECT_TABLE →
      CollectGrantTableIdList env grantStmt = .ok tableIdList → tableIdList ≠ [] →
      env.isCoordinator = true →
      PreprocessGrantStmt env grantStmt =
        .error (.MalformedPrivilegeList "Cannot parse GRANT/REVOKE privileges")) := by
  have hprivs : PreprocessGrantStmt.deparsePrivileges grantStmt.privileges =
      .error (.MalformedPrivilegeList "Cannot parse GRANT/REVOKE privileges") := by
    cases hp : grantStmt.privileges with
    | nil => rw [hp] at hentry; simp at hentry
    | cons first rest =>
      rw [hp] at hentry
      obtain ⟨j, rfl⟩ : ∃ j, i = j + 1 := ⟨i - 1, by omega⟩
      rw [List.getElem?_cons_succ] at hentry
      exact deparsePrivileges_nameless first rest ⟨priv, List.getElem?_mem hentry, hnameless⟩
  have hfail : ∀ tableIdList, grantStmt.objtype = .OBJECT_TABLE →
      CollectGrantTableIdList env grantStmt = .ok tableIdList → tableIdList ≠ [] →
      env.isCoordinator = true →
      PreprocessGrantStmt env grantStmt =
        .error (.MalformedPrivilegeList "Cannot parse GRANT/REVOKE privileges") := by
    intro tableIdList htable hlist hne hcoord
    have hemp : tableIdList.isEmpty = false := by
      cases tableIdList with
      | nil => exact absurd rfl hne
      | cons a l => rfl
    simp [PreprocessGrantStmt, htable, hlist, hemp, EnsureCoordinator, hcoord, hprivs]
  refine ⟨?_, hfail⟩
  intro ddlJobs hjobs
  by_cases htable : grantStmt.objtype = .OBJECT_TABLE
  · cases hlist : CollectGrantTableIdList env grantStmt with
    | error e =>
      rw [PreprocessGrantStmt_of_resolver_error env grantStmt e htable hlist] at hjobs
      cases hjobs
    | ok tableIdList =>
      by_cases hne : tableIdList = []
      · subst hne
        rw [PreprocessGrantStmt_of_no_target env grantStmt hlist] at hjobs
        cases hjobs
        rfl
      · cases hcoord : env.isCoordinator with
        | false =>
          rw [PreprocessGrantStmt_of_worker env grantStmt tableIdList htable hlist hne hcoord]
            at hjobs
          cases hjobs
        | true =>
          rw [hfail tableIdList htable hlist hne hcoord] at hjobs
          cases hjobs
  · have hnoop : PreprocessGrantStmt env grantStmt = .ok [] := by
      simp [PreprocessGrantStmt, htable]
    rw [hnoop] at hjobs
    cases hjobs
    rfl

/-- C10 on the coordinator, for a revoke on `public.orders` whose second privilege is nameless. -/
theorem malformed_privileges_rejected_witness :
    (0 < 1 ∧ revokeMalformed.privileges[1]? = some allPrivileges ∧
      allPrivileges.priv_name = none) ∧
    CollectGrantTableIdList sampleCluster revokeMalformed = .ok [16384] ∧
    PreprocessGrantStmt sampleCluster revokeMalformed =
      .error (.MalformedPrivilegeList "Cannot parse GRANT/REVOKE privileges") :=
  ⟨⟨by decide, rfl, rfl⟩, rfl,
    (malformed_privileges_rejected sampleCluster revokeMalformed 1 allPrivileges (by decide)
      rfl rfl).2 [16384] rfl rfl (by decide) rfl⟩

/-! ## The job list and the resolved list -/

/-- In schema mode a schema name that does not resolve aborts the resolver. -/
theorem CollectGrantTableIdList_schema_unresolved (env : Collaborators) (grantStmt : GrantStmt)
    (htable : grantStmt.objtype = .OBJECT_TABLE)
    (hmode : grantStmt.targtype = .ACL_TARGET_ALL_IN_SCHEMA)
    (hmiss : ∃ nspname ∈ grantStmt.objects, env.get_namespace_oid nspname = none) :
    CollectGrantTableIdList env grantStmt = .error .NotFound := by
  simp [CollectGrantTableIdList, htable, hmode, namespaceLoop_unresolved env _ hmiss]

/-- The relation list of a request has no repeated relation when, in object mode, the names
resolve to pairwise distinct relations and, in schema mode, the Citus-table enumeration lists
every relation once. -/
theorem CollectGrantTableIdList_nodup (env : Collaborators) (grantStmt : GrantStmt)
    (tableIdList : List Oid)
    (hlist : CollectGrantTableIdList env grantStmt = .ok tableIdList)
    (hobjects : grantStmt.targtype = .ACL_TARGET_OBJECT →
      (grantStmt.objects.filterMap env.RangeVarGetRelid).Nodup)
    (hcatalog : grantStmt.targtype = .ACL_TARGET_ALL_IN_SCHEMA →
      env.CitusTableTypeIdList.Nodup) :
    tableIdList.Nodup := by
  by_cases htable : grantStmt.objtype = .OBJECT_TABLE
  · cases hmode : grantStmt.targtype with
    | ACL_TARGET_OBJECT =>
      rw [CollectGrantTableIdList_object env grantStmt htable hmode] at hlist
      by_cases hres : ∀ relvar ∈ grantStmt.objects, env.RangeVarGetRelid relvar ≠ none
      · rw [objectLoop_resolved env _ hres] at hlist
        cases hlist
        simpa using (hobjects hmode).filter _
      · have hmiss : ∃ relvar ∈ grantStmt.objects, env.RangeVarGetRelid relvar = none := by
          simpa using hres
        rw [objectLoop_unresolved env _ hmiss] at hlist
        cases hlist
    | ACL_TARGET_ALL_IN_SCHEMA =>
      by_cases hres : ∀ nspname ∈ grantStmt.objects, env.get_namespace_oid nspname ≠ none
      · rw [CollectGrantTableIdList_schema env grantStmt htable hmode hres] at hlist
        cases hlist
        exact (hcatalog hmode).filter _
      · have hmiss : ∃ nspname ∈ grantStmt.objects, env.get_namespace_oid nspname = none := by
          simpa using hres
        rw [CollectGrantTableIdList_schema_unresolved env grantStmt htable hmode hmiss] at hlist
        cases hlist
    | ACL_TARGET_DEFAULTS =>
      rw [CollectGrantTableIdList_defaults env grantStmt hmode] at hlist
      cases hlist
      exact List.nodup_nil
  · have hnil : CollectGrantTableIdList env grantStmt = .ok [] := by
      simp [CollectGrantTableIdList, htable]
    rw [hnil] at hlist
    cases hlist
    exact List.nodup_nil

/-- The relation address determines the relation. -/
theorem ObjectAddressSet_injective (class_id : Oid) :
    Function.Injective (ObjectAddressSet class_id) := by
  intro a b hab
  simpa [ObjectAddressSet] using hab

/-- C11 (as stated, refuted): on the coordinator, a grant that names the distributed table
`public.orders` twice returns two jobs with the same target. -/
theorem duplicate_name_gives_duplicate_target :
    ∃ ddlJobs, PreprocessGrantStmt sampleCluster grantOrdersTwice = .ok ddlJobs ∧
      ddlJobs.map DDLJob.targetObjectAddress =
        [ObjectAddressSet RelationRelationId 16384, ObjectAddressSet RelationRelationId 16384] ∧
      ¬ (ddlJobs.map DDLJob.targetObjectAddress).Nodup := by
  refine ⟨_, rfl, rfl, ?_⟩
  decide

/-- In object mode a relation list returned by the resolver is the list of the resolved
relations that are a Citus table or another distributed object, one entry per mention. -/
theorem CollectGrantTableIdList_object_ok (env : Collaborators) (grantStmt : GrantStmt)
    (tableIdList : List Oid) (htable : grantStmt.objtype = .OBJECT_TABLE)
    (hmode : grantStmt.targtype = .ACL_TARGET_OBJECT)
    (hlist : CollectGrantTableIdList env grantStmt = .ok tableIdList) :
    tableIdList = (grantStmt.objects.filterMap env.RangeVarGetRelid).filter (fun relationId =>
      env.IsCitusTable relationId ||
        env.IsAnyObjectDistributed (ObjectAddressSet RelationRelationId relationId)) := by
  rw [CollectGrantTableIdList_object env grantStmt htable hmode] at hlist
  by_cases hres : ∀ relvar ∈ grantStmt.objects, env.RangeVarGetRelid relvar ≠ none
  · rw [objectLoop_resolved env _ hres] at hlist
    cases hlist
    simp
  · have hmiss : ∃ relvar ∈ grantStmt.objects, env.RangeVarGetRelid relvar = none := by
      simpa using hres
    rw [objectLoop_unresolved env _ hmiss] at hlist
    cases hlist

/-- In schema mode a relation list returned by the resolver is the Citus-table enumeration
filtered by the resolved schemas. -/
theorem CollectGrantTableIdList_schema_ok (env : Collaborators) (grantStmt : GrantStmt)
    (tableIdList : List Oid) (htable : grantStmt.objtype = .OBJECT_TABLE)
    (hmode : grantStmt.targtype = .ACL_TARGET_ALL_IN_SCHEMA)
    (hlist : CollectGrantTableIdList env grantStmt = .ok tableIdList) :
    tableIdList = env.CitusTableTypeIdList.filter (fun relationId =>
      decide (env.get_rel_namespace relationId ∈
        grantStmt.objects.filterMap env.get_namespace_oid)) := by
  by_cases hres : ∀ nspname ∈ grantStmt.objects, env.get_namespace_oid nspname ≠ none
  · rw [CollectGrantTableIdList_schema env grantStmt htable hmode hres] at hlist
    cases hlist
    rfl
  · have hmiss : ∃ nspname ∈ grantStmt.objects, env.get_namespace_oid nspname = none := by
      simpa using hres
    rw [CollectGrantTableIdList_schema_unresolved env grantStmt htable hmode hmiss] at hlist
    cases hlist

/-- C11 (amended): when the call returns a job list, the targets of the jobs are the addresses
of the relations of the resolver list, entry by entry, so they are pairwise distinct exactly
when the resolver list has no repeated relation. In object mode the resolver list is the list of
the resolved relations that are kept (a Citus table or another distributed object), in statement
order with one entry per mention: every kept relation has as many jobs as the statement has
names resolving to it. In schema mode it is the Citus-table enumeration filtered by the resolved
schemas. -/
theorem job_targets_distinct (env : Collaborators) (grantStmt : GrantStmt)
    (ddlJobs : List DDLJob) (hjobs : PreprocessGrantStmt env grantStmt = .ok ddlJobs) :
    ∃ tableIdList, CollectGrantTableIdList env grantStmt = .ok tableIdList ∧
      ddlJobs.map DDLJob.targetObjectAddress =
        tableIdList.map (ObjectAddressSet RelationRelationId) ∧
      ((ddlJobs.map DDLJob.targetObjectAddress).Nodup ↔ tableIdList.Nodup) ∧
      (grantStmt.objtype = .OBJECT_TABLE → grantStmt.targtype = .ACL_TARGET_OBJECT →
        tableIdList =
          (grantStmt.objects.filterMap env.RangeVarGetRelid).filter (fun relationId =>
            env.IsCitusTable relationId ||
              env.IsAnyObjectDistributed (ObjectAddressSet RelationRelationId relationId)) ∧
        ∀ relationId,
          (env.IsCitusTable relationId ||
            env.IsAnyObjectDistributed (ObjectAddressSet RelationRelationId relationId)) =
              true →
          (ddlJobs.map DDLJob.targetObjectAddress).count
              (ObjectAddressSet RelationRelationId relationId) =
            (grantStmt.objects.filterMap env.RangeVarGetRelid).count relationId) ∧
      (grantStmt.objtype = .OBJECT_TABLE → grantStmt.targtype = .ACL_TARGET_ALL_IN_SCHEMA →
        tableIdList = env.CitusTableTypeIdList.filter (fun relationId =>
          decide (env.get_rel_namespace relationId ∈
            grantStmt.objects.filterMap env.get_namespace_oid))) := by
  obtain ⟨tableIdList, hlist, command, hmap⟩ :=
    PreprocessGrantStmt_ok_jobs env grantStmt ddlJobs hjobs
  have htargets : ddlJobs.map DDLJob.targetObjectAddress =
      tableIdList.map (ObjectAddressSet RelationRelationId) := by
    rw [hmap]
    simp [List.map_map, Function.comp_def]
  refine ⟨tableIdList, hlist, htargets, ?_, ?_, ?_⟩
  · rw [htargets]
    exact List.nodup_map_iff (ObjectAddressSet_injective RelationRelationId)
  · intro htable hmode
    have hkept := CollectGrantTableIdList_object_ok env grantStmt tableIdList htable hmode hlist
    refine ⟨hkept, ?_⟩
    intro relationId hrel
    rw [htargets, List.count_map_of_injective _ _
      (ObjectAddressSet_injective RelationRelationId), hkept]
    exact List.count_filter hrel
  · intro htable hmode
    exact CollectGrantTableIdList_schema_ok env grantStmt tableIdList htable hmode hlist

/-- C11 (amended) on the sample catalog. Naming the local table twice before `public.orders`
repeats a resolved relation, but the relation is dropped: one job, distinct targets. Naming
`public.orders` twice gives that kept relation two jobs. -/
theorem job_targets_distinct_witness :
    (¬ (grantLocalTwiceAndOrders.objects.filterMap sampleCluster.RangeVarGetRelid).Nodup ∧
      CollectGrantTableIdList sampleCluster grantLocalTwiceAndOrders = .ok [16384] ∧
      ∃ ddlJobs, PreprocessGrantStmt sampleCluster grantLocalTwiceAndOrders = .ok ddlJobs ∧
        ddlJobs.map DDLJob.targetObjectAddress = [ObjectAddressSet RelationRelationId 16384] ∧
        (ddlJobs.map DDLJob.targetObjectAddress).Nodup ∧
        ∃ tableIdList,
          CollectGrantTableIdList sampleCluster grantLocalTwiceAndOrders = .ok tableIdList ∧
          ddlJobs.map DDLJob.targetObjectAddress =
            tableIdList.map (ObjectAddressSet RelationRelationId) ∧
          ((ddlJobs.map DDLJob.targetObjectAddress).Nodup ↔ tableIdList.Nodup) ∧
          (grantLocalTwiceAndOrders.objtype = .OBJECT_TABLE →
            grantLocalTwiceAndOrders.targtype = .ACL_TARGET_OBJECT →
            tableIdList =
              (grantLocalTwiceAndOrders.objects.filterMap
                sampleCluster.RangeVarGetRelid).filter (fun relationId =>
                sampleCluster.IsCitusTable relationId ||
                  sampleCluster.IsAnyObjectDistributed
                    (ObjectAddressSet RelationRelationId relationId)) ∧
            ∀ relationId,
              (sampleCluster.IsCitusTable relationId ||
                sampleCluster.IsAnyObjectDistributed
                  (ObjectAddressSet RelationRelationId relationId)) = true →
              (ddlJobs.map DDLJob.targetObjectAddress).count
                  (ObjectAddressSet RelationRelationId relationId) =
                (grantLocalTwiceAndOrders.objects.filterMap
                  sampleCluster.RangeVarGetRelid).count relationId) ∧
          (grantLocalTwiceAndOrders.objtype = .OBJECT_TABLE →
            grantLocalTwiceAndOrders.targtype = .ACL_TARGET_ALL_IN_SCHEMA →
            tableIdList = sampleCluster.CitusTableTypeIdList.filter (fun relationId =>
              decide (sampleCluster.get_rel_namespace relationId ∈
                grantLocalTwiceAndOrders.objects.filterMap
                  sampleCluster.get_namespace_oid)))) ∧
    (∀ ddlJobs, PreprocessGrantStmt sampleCluster grantOrdersTwice = .ok ddlJobs →
      (ddlJobs.map DDLJob.targetObjectAddress).count
          (ObjectAddressSet RelationRelationId 16384) = 2) :=
  ⟨⟨by decide, rfl, _, rfl, rfl, by decide,
      job_targets_distinct sampleCluster grantLocalTwiceAndOrders _ rfl⟩,
    fun ddlJobs hjobs => by
      obtain ⟨tableIdList, _, _, _, hobject, _⟩ :=
        job_targets_distinct sampleCluster grantOrdersTwice ddlJobs hjobs
      exact ((hobject rfl rfl).2 16384 rfl).trans rfl⟩

/-- C12: when the call succeeds, the resolver returned a list and the jobs follow it, one job per
resolved relation in the same order: the target of a job is the address of its relation, and
its task list is the list planned for the relation and the command of that same job when the
relation is a Citus table, and empty otherwise. -/
theorem jobs_follow_resolved_list (env : Collaborators) (grantStmt : GrantStmt)
    (ddlJobs : List DDLJob) (hjobs : PreprocessGrantStmt env grantStmt = .ok ddlJobs) :
    ∃ tableIdList, CollectGrantTableIdList env grantStmt = .ok tableIdList ∧
      ddlJobs.length = tableIdList.length ∧
      List.Forall₂ (fun relationId ddlJob =>
        ddlJob.targetObjectAddress = ObjectAddressSet RelationRelationId relationId ∧
        ddlJob.taskList =
          if env.IsCitusTable relationId then
            env.DDLTaskList relationId ddlJob.metadataSyncCommand
          else []) tableIdList ddlJobs := by
  obtain ⟨tableIdList, hlist, command, hmap⟩ :=
    PreprocessGrantStmt_ok_jobs env grantStmt ddlJobs hjobs
  refine ⟨tableIdList, hlist, by rw [hmap, List.length_map], ?_⟩
  rw [hmap, List.forall₂_map_right_iff, List.forall₂_same]
  intro relationId _
  exact ⟨rfl, rfl⟩

/-- C12 for a grant on a distributed table, the local table and the distributed sequence: the
job of the table carries its planned tasks, the job of the sequence carries none. -/
theorem jobs_follow_resolved_list_witness :
    ∃ tableIdList, CollectGrantTableIdList sampleCluster grantOnTableAndSequence =
        .ok tableIdList ∧
      [({ targetObjectAddress := ObjectAddressSet RelationRelationId 16384
          metadataSyncCommand := "GRANT SELECT ON public.orders TO alice"
          taskList := sampleCluster.DDLTaskList 16384 "GRANT SELECT ON public.orders TO alice" }
          : DDLJob),
        { targetObjectAddress := ObjectAddressSet RelationRelationId 16400
          metadataSyncCommand := "GRANT SELECT ON public.order_id_seq TO alice"
          taskList := [] }].length = tableIdList.length ∧
      List.Forall₂ (fun relationId ddlJob =>
        ddlJob.targetObjectAddress = ObjectAddressSet RelationRelationId relationId ∧
        ddlJob.taskList =
          if sampleCluster.IsCitusTable relationId then
            sampleCluster.DDLTaskList relationId ddlJob.metadataSyncCommand
          else []) tableIdList
        [({ targetObjectAddress := ObjectAddressSet RelationRelationId 16384
            metadataSyncCommand := "GRANT SELECT ON public.orders TO alice"
            taskList := sampleCluster.DDLTaskList 16384 "GRANT SELECT ON public.orders TO alice" }
            : DDLJob),
          { targetObjectAddress := ObjectAddressSet RelationRelationId 16400
            metadataSyncCommand := "GRANT SELECT ON public.order_id_seq TO alice"
            taskList := [] }] :=
  jobs_follow_resolved_list sampleCluster grantOnTableAndSequence _ rfl

/-- A text that starts with `GRANT ` is not empty. -/
theorem grant_text_ne_empty (rest : String) : "GRANT " ++ rest ≠ "" := by
  intro h
  have hlen := congrArg String.length h
  simp only [String.length_append] at hlen
  have hsix : "GRANT ".length = 6 := by decide
  have hzero : "".length = 0 := by decide
  omega

/-- A text that starts with `REVOKE ` is not empty. -/
theorem revoke_text_ne_empty (rest : String) : "REVOKE " ++ rest ≠ "" := by
  intro h
  have hlen := congrArg String.length h
  simp only [String.length_append] at hlen
  have hseven : "REVOKE ".length = 7 := by decide
  have hzero : "".length = 0 := by decide
  omega

/-- C13: every job of a returned job list has a non-empty command, whatever the grantee list and
the relation names are. -/
theorem command_never_empty (env : Collaborators) (grantStmt : GrantStmt)
    (ddlJobs : List DDLJob) (hjobs : PreprocessGrantStmt env grantStmt = .ok ddlJobs) :
    ∀ ddlJob ∈ ddlJobs, ddlJob.metadataSyncCommand ≠ "" := by
  obtain ⟨tableIdList, _, hcase⟩ := PreprocessGrantStmt_ok_inv env grantStmt ddlJobs hjobs
  rcases hcase with ⟨_, hnil⟩ | ⟨_, _, _, privsString, _, hloop⟩
  · subst hnil
    simp
  · intro ddlJob hmem
    rw [hloop] at hmem
    cases hgrant : grantStmt.is_grant with
    | true =>
      rw [tableLoop_grant env grantStmt _ _ hgrant] at hmem
      simp only [List.nil_append, List.mem_map] at hmem
      obtain ⟨relationId, _, rfl⟩ := hmem
      simp only [String.append_assoc]
      exact grant_text_ne_empty _
    | false =>
      rw [tableLoop_revoke env grantStmt _ _ hgrant] at hmem
      simp only [List.nil_append, List.mem_map] at hmem
      obtain ⟨relationId, _, rfl⟩ := hmem
      simp only [String.append_assoc]
      exact revoke_text_ne_empty _

/-- C13 for a grant with no grantee on a catalog whose relation names are empty: the command is
`GRANT SELECT ON  TO `. -/
theorem command_never_empty_witness :
    grantToNobody.grantees = [] ∧ blankNameCluster.generate_relation_name 16384 = "" ∧
    ∃ ddlJobs, PreprocessGrantStmt blankNameCluster grantToNobody = .ok ddlJobs ∧
      ddlJobs.map DDLJob.metadataSyncCommand = ["GRANT SELECT ON  TO "] ∧
      ∀ ddlJob ∈ ddlJobs, ddlJob.metadataSyncCommand ≠ "" :=
  ⟨rfl, rfl, _, rfl, rfl, command_never_empty blankNameCluster grantToNobody _ rfl⟩

/-- C14: the grantee text is the role texts of the grantees joined with `", "` in list order:
empty for no grantee, the bare role text for a single grantee, and for a longer list the text
of the first grantee followed by `", "` and the text of the others. -/
theorem grantee_text_rendering (env : Collaborators) :
    (∀ grantees : List RoleSpec,
      PreprocessGrantStmt.granteeLoop env grantees true "" =
        ", ".intercalate (grantees.map env.RoleSpecString)) ∧
    PreprocessGrantStmt.granteeLoop env [] true "" = "" ∧
    (∀ spec : RoleSpec,
      PreprocessGrantStmt.granteeLoop env [spec] true "" = env.RoleSpecString spec) ∧
    (∀ (first second : RoleSpec) (rest : List RoleSpec),
      PreprocessGrantStmt.granteeLoop env (first :: second :: rest) true "" =
        env.RoleSpecString first ++ ", " ++
          PreprocessGrantStmt.granteeLoop env (second :: rest) true "") := by
  have hgo : ∀ (specs : List RoleSpec) (acc : String),
      PreprocessGrantStmt.granteeLoop env specs false acc =
        String.intercalate.go acc ", " (specs.map env.RoleSpecString) := by
    intro specs
    induction specs with
    | nil => intro acc; rfl
    | cons spec rest ih =>
      intro acc
      simp [PreprocessGrantStmt.granteeLoop, ih, String.intercalate.go, String.append_assoc]
  have happ : ∀ (texts : List String) (a b : String),
      String.intercalate.go (a ++ b) ", " texts = a ++ String.intercalate.go b ", " texts := by
    intro texts
    induction texts with
    | nil => intro a b; rfl
    | cons t rest ih =>
      intro a b
      simp only [String.intercalate.go, String.append_assoc, ih]
  refine ⟨?_, rfl, ?_, ?_⟩
  · intro grantees
    cases grantees with
    | nil => rfl
    | cons spec rest => simp [PreprocessGrantStmt.granteeLoop, hgo, String.intercalate]
  · intro spec
    simp [PreprocessGrantStmt.granteeLoop]
  · intro first second rest
    simp only [PreprocessGrantStmt.granteeLoop, hgo, Bool.not_true, Bool.not_false,
      String.empty_append, if_true, Bool.false_eq_true, if_false, List.map_cons,
      String.intercalate.go, String.append_assoc]
    rw [happ]
    simp [String.intercalate.go, happ, String.append_assoc]

/-- C15: for a table request in object mode whose names all resolve, the resolver returns the
resolved relations, in statement order, that are a Citus table or another distributed object
(the others are dropped); in a returned job list the job of a kept relation carries the tasks
planned for it when the relation is a Citus table and the empty, unplanned list when it is
not. -/
theorem object_mode_keeps_distributed (env : Collaborators) (grantStmt : GrantStmt)
    (htable : grantStmt.objtype = .OBJECT_TABLE)
    (hmode : grantStmt.targtype = .ACL_TARGET_OBJECT)
    (hres : ∀ relvar ∈ grantStmt.objects, env.RangeVarGetRelid relvar ≠ none) :
    CollectGrantTableIdList env grantStmt =
      .ok ((grantStmt.objects.filterMap env.RangeVarGetRelid).filter (fun relationId =>
        env.IsCitusTable relationId ||
          env.IsAnyObjectDistributed (ObjectAddressSet RelationRelationId relationId))) ∧
    ∀ ddlJobs, PreprocessGrantStmt env grantStmt = .ok ddlJobs →
      List.Forall₂ (fun relationId ddlJob =>
        ddlJob.targetObjectAddress = ObjectAddressSet RelationRelationId relationId ∧
        (env.IsCitusTable relationId = false → ddlJob.taskList = []) ∧
        (env.IsCitusTable relationId = true →
          ddlJob.taskList = env.DDLTaskList relationId ddlJob.metadataSyncCommand))
        ((grantStmt.objects.filterMap env.RangeVarGetRelid).filter (fun relationId =>
          env.IsCitusTable relationId ||
            env.IsAnyObjectDistributed (ObjectAddressSet RelationRelationId relationId)))
        ddlJobs := by
  have hcollect : CollectGrantTableIdList env grantStmt =
      .ok ((grantStmt.objects.filterMap env.RangeVarGetRelid).filter (fun relationId =>
        env.IsCitusTable relationId ||
          env.IsAnyObjectDistributed (ObjectAddressSet RelationRelationId relationId))) := by
    rw [CollectGrantTableIdList_object env grantStmt htable hmode,
      objectLoop_resolved env _ hres]
    simp
  refine ⟨hcollect, ?_⟩
  intro ddlJobs hjobs
  obtain ⟨tableIdList, hlist, command, hmap⟩ :=
    PreprocessGrantStmt_ok_jobs env grantStmt ddlJobs hjobs
  rw [hcollect] at hlist
  cases hlist
  rw [hmap, List.forall₂_map_right_iff, List.forall₂_same]
  intro relationId _
  refine ⟨rfl, ?_, ?_⟩
  · intro hcitus
    simp [hcitus]
  · intro hcitus
    simp [hcitus]

/-- C15 for a grant on a distributed table, the local table and the distributed sequence: the
local table is dropped, the table and the sequence are kept in statement order. -/
theorem object_mode_keeps_distributed_witness :
    (∀ relvar ∈ grantOnTableAndSequence.objects,
      sampleCluster.RangeVarGetRelid relvar ≠ none) ∧
    grantOnTableAndSequence.objects.filterMap sampleCluster.RangeVarGetRelid =
      [16384, 16390, 16400] ∧
    CollectGrantTableIdList sampleCluster grantOnTableAndSequence = .ok [16384, 16400] ∧
    ∀ ddlJobs, PreprocessGrantStmt sampleCluster grantOnTableAndSequence = .ok ddlJobs →
      List.Forall₂ (fun relationId ddlJob =>
        ddlJob.targetObjectAddress = ObjectAddressSet RelationRelationId relationId ∧
        (sampleCluster.IsCitusTable relationId = false → ddlJob.taskList = []) ∧
        (sampleCluster.IsCitusTable relationId = true →
          ddlJob.taskList = sampleCluster.DDLTaskList relationId ddlJob.metadataSyncCommand))
        [16384, 16400] ddlJobs :=
  ⟨by decide, rfl,
    object_mode_keeps_distributed sampleCluster grantOnTableAndSequence rfl rfl (by decide)⟩

/-- A nameless entry at a position other than the first makes the privilege deparse fail. -/
theorem deparsePrivileges_of_nameless_entry (privileges : List AccessPriv) (i : Nat)
    (priv : AccessPriv) (hpos : 0 < i) (hentry : privileges[i]? = some priv)
    (hnameless : priv.priv_name = none) :
    PreprocessGrantStmt.deparsePrivileges privileges =
      .error (.MalformedPrivilegeList "Cannot parse GRANT/REVOKE privileges") := by
  cases privileges with
  | nil => simp at hentry
  | cons first rest =>
    obtain ⟨j, rfl⟩ : ∃ j, i = j + 1 := ⟨i - 1, by omega⟩
    rw [List.getElem?_cons_succ] at hentry
    exact deparsePrivileges_nameless first rest ⟨priv, List.getElem?_mem hentry, hnameless⟩

/-- C16: for a table request that resolves to a non-empty relation list on a node that is not
the coordinator, with a privilege list that has a nameless entry after the first position (so
that its deparse would fail), the call fails with `NotCoordinator`: no job list is returned and
the privilege error is not the one raised. -/
theorem coordinator_check_precedes_rendering (env : Collaborators) (grantStmt : GrantStmt)
    (tableIdList : List Oid) (i : Nat) (priv : AccessPriv)
    (htable : grantStmt.objtype = .OBJECT_TABLE)
    (hlist : CollectGrantTableIdList env grantStmt = .ok tableIdList)
    (hne : tableIdList ≠ []) (hworker : env.isCoordinator = false)
    (hpos : 0 < i) (hentry : grantStmt.privileges[i]? = some priv)
    (hnameless : priv.priv_name = none) :
    PreprocessGrantStmt.deparsePrivileges grantStmt.privileges =
      .error (.MalformedPrivilegeList "Cannot parse GRANT/REVOKE privileges") ∧
    PreprocessGrantStmt env grantStmt = .error .NotCoordinator ∧
    (∀ errmsg, PreprocessGrantStmt env grantStmt ≠ .error (.MalformedPrivilegeList errmsg)) ∧
    (∀ ddlJobs, PreprocessGrantStmt env grantStmt ≠ .ok ddlJobs) := by
  have hfail := PreprocessGrantStmt_of_worker env grantStmt tableIdList htable hlist hne hworker
  refine ⟨deparsePrivileges_of_nameless_entry _ i priv hpos hentry hnameless, hfail, ?_, ?_⟩
  · intro errmsg h
    rw [hfail] at h
    cases h
  · intro ddlJobs h
    rw [hfail] at h
    cases h

/-- C16 on the sample worker, for a revoke on `public.orders` whose second privilege is
nameless. -/
theorem coordinator_check_precedes_rendering_witness :
    CollectGrantTableIdList sampleWorker revokeMalformed = .ok [16384] ∧
    sampleWorker.isCoordinator = false ∧
    revokeMalformed.privileges[1]? = some allPrivileges ∧
    PreprocessGrantStmt.deparsePrivileges revokeMalformed.privileges =
      .error (.MalformedPrivilegeList "Cannot parse GRANT/REVOKE privileges") ∧
    PreprocessGrantStmt sampleWorker revokeMalformed = .error .NotCoordinator ∧
    (∀ errmsg,
      PreprocessGrantStmt sampleWorker revokeMalformed ≠
        .error (.MalformedPrivilegeList errmsg)) ∧
    (∀ ddlJobs, PreprocessGrantStmt sampleWorker revokeMalformed ≠ .ok ddlJobs) :=
  ⟨rfl, rfl, rfl,
    coordinator_check_precedes_rendering sampleWorker revokeMalformed [16384] 1 allPrivileges
      rfl rfl (by decide) rfl (by decide) rfl rfl⟩

/-- C17: in schema mode the resolver depends on the set of resolved schema oids only: two table
requests in schema mode whose schema names all resolve, and resolve to the same set of oids,
get the same relation list on the same catalog. -/
theorem schema_mode_depends_on_schema_set (env : Collaborators) (first second : GrantStmt)
    (htable₁ : first.objtype = .OBJECT_TABLE) (htable₂ : second.objtype = .OBJECT_TABLE)
    (hmode₁ : first.targtype = .ACL_TARGET_ALL_IN_SCHEMA)
    (hmode₂ : second.targtype = .ACL_TARGET_ALL_IN_SCHEMA)
    (hres₁ : ∀ nspname ∈ first.objects, env.get_namespace_oid nspname ≠ none)
    (hres₂ : ∀ nspname ∈ second.objects, env.get_namespace_oid nspname ≠ none)
    (hsame : ∀ namespaceOid, namespaceOid ∈ first.objects.filterMap env.get_namespace_oid ↔
      namespaceOid ∈ second.objects.filterMap env.get_namespace_oid) :
    CollectGrantTableIdList env first = CollectGrantTableIdList env second := by
  rw [CollectGrantTableIdList_schema env first htable₁ hmode₁ hres₁,
    CollectGrantTableIdList_schema env second htable₂ hmode₂ hres₂]
  congr 1
  apply List.filter_congr
  intro relationId _
  exact decide_eq_decide.mpr (hsame _)

/-- C17 on the sample catalog: naming schema `public` twice gives the same two relations as
naming it once. -/
theorem schema_mode_depends_on_schema_set_witness :
    grantAllInPublicTwice.objects = ["public", "public"] ∧
    grantAllInPublic.objects = ["public"] ∧
    CollectGrantTableIdList sampleCluster grantAllInPublicTwice =
      CollectGrantTableIdList sampleCluster grantAllInPublic ∧
    CollectGrantTableIdList sampleCluster grantAllInPublicTwice = .ok [16384, 16385] :=
  ⟨rfl, rfl,
    schema_mode_depends_on_schema_set sampleCluster grantAllInPublicTwice grantAllInPublic
      rfl rfl rfl rfl (by decide) (by decide)
      (fun namespaceOid => by
        show namespaceOid ∈ [2200, 2200] ↔ namespaceOid ∈ [2200]
        simp),
    rfl⟩

/-- C18: for a grant, the result of the call is the same whatever `behavior` is, and every command
of a returned job list ends with the grantee text, or with ` WITH GRANT OPTION` after it when
`grant_option` is set: no cascade clause follows. -/
theorem grant_ignores_behavior (env : Collaborators) (grantStmt : GrantStmt)
    (behavior : DropBehavior) (hgrant : grantStmt.is_grant = true) :
    PreprocessGrantStmt env { grantStmt with behavior := behavior } =
      PreprocessGrantStmt env grantStmt ∧
    ∀ ddlJobs, PreprocessGrantStmt env grantStmt = .ok ddlJobs →
      ∀ ddlJob ∈ ddlJobs, ∃ relationId privsString,
        ddlJob.metadataSyncCommand =
          "GRANT " ++ privsString ++ " ON " ++ env.generate_relation_name relationId ++
            " TO " ++ ", ".intercalate (grantStmt.grantees.map env.RoleSpecString) ++
            (if grantStmt.grant_option then " WITH GRANT OPTION" else "") := by
  constructor
  · have hcollect : CollectGrantTableIdList env { grantStmt with behavior := behavior } =
        CollectGrantTableIdList env grantStmt := rfl
    have hloop : ∀ (privsString granteesString : String) (tableIdList : List Oid),
        PreprocessGrantStmt.tableLoop env { grantStmt with behavior := behavior } privsString
            granteesString tableIdList "" "" [] =
          PreprocessGrantStmt.tableLoop env grantStmt privsString granteesString tableIdList
            "" "" [] := by
      intro privsString granteesString tableIdList
      exact (tableLoop_grant env { grantStmt with behavior := behavior } privsString
        granteesString hgrant tableIdList "" []).trans
        (tableLoop_grant env grantStmt privsString granteesString hgrant tableIdList "" []).symm
    simp only [PreprocessGrantStmt, hcollect, hloop]
  · intro ddlJobs hjobs ddlJob hmem
    obtain ⟨tableIdList, _, hcase⟩ := PreprocessGrantStmt_ok_inv env grantStmt ddlJobs hjobs
    rcases hcase with ⟨_, hnil⟩ | ⟨_, _, _, privsString, _, hloop⟩
    · subst hnil
      simp at hmem
    · rw [hloop, tableLoop_grant env grantStmt _ _ hgrant] at hmem
      simp only [List.nil_append, List.mem_map] at hmem
      obtain ⟨relationId, _, rfl⟩ := hmem
      exact ⟨relationId, privsString, rfl⟩

/-- C18 for `GRANT SELECT ON public.orders TO alice WITH GRANT OPTION`, read with CASCADE
instead of RESTRICT. -/
theorem grant_ignores_behavior_witness :
    grantSelectToAlice.behavior = .DROP_RESTRICT ∧
    PreprocessGrantStmt sampleCluster { grantSelectToAlice with behavior := .DROP_CASCADE } =
      PreprocessGrantStmt sampleCluster grantSelectToAlice ∧
    (PreprocessGrantStmt sampleCluster
        { grantSelectToAlice with behavior := .DROP_CASCADE }).map
        (List.map DDLJob.metadataSyncCommand) =
      .ok ["GRANT SELECT ON public.orders TO alice WITH GRANT OPTION"] :=
  ⟨rfl, (grant_ignores_behavior sampleCluster grantSelectToAlice .DROP_CASCADE rfl).1, rfl⟩

/-- C19: in a successful call the job at position `i` is the single job the relation loop builds,
from the same privilege and grantee texts, for the one-element list holding the relation at
position `i` of the resolved list: nothing of the other iterations is in its command. -/
theorem command_depends_on_own_target (env : Collaborators) (grantStmt : GrantStmt)
    (ddlJobs : List DDLJob) (tableIdList : List Oid) (i : Nat) (relationId : Oid)
    (hjobs : PreprocessGrantStmt env grantStmt = .ok ddlJobs)
    (hlist : CollectGrantTableIdList env grantStmt = .ok tableIdList)
    (hrel : tableIdList[i]? = some relationId) :
    ∃ privsString single,
      PreprocessGrantStmt.deparsePrivileges grantStmt.privileges = .ok privsString ∧
      ddlJobs[i]? = some single ∧
      PreprocessGrantStmt.tableLoop env grantStmt privsString
        (", ".intercalate (grantStmt.grantees.map env.RoleSpecString)) [relationId] "" "" [] =
        [single] := by
  obtain ⟨resolved, hresolved, hcase⟩ := PreprocessGrantStmt_ok_inv env grantStmt ddlJobs hjobs
  rw [hlist] at hresolved
  cases hresolved
  rcases hcase with ⟨hnil, _⟩ | ⟨_, _, _, privsString, hprivs, hloop⟩
  · subst hnil
    simp at hrel
  · obtain ⟨command, hcommand⟩ := tableLoop_jobs env grantStmt privsString
      (", ".intercalate (grantStmt.grantees.map env.RoleSpecString))
    refine ⟨privsString, _, hprivs, ?_, (hcommand [relationId] "" []).trans rfl⟩
    rw [hloop, hcommand]
    simp [List.getElem?_map, hrel]

/-- C19 for a grant on a distributed table, the local table and the distributed sequence: the
second job is the job built for the sequence alone. -/
theorem command_depends_on_own_target_witness :
    ∃ ddlJobs, PreprocessGrantStmt sampleCluster grantOnTableAndSequence = .ok ddlJobs ∧
      ∃ privsString single,
        PreprocessGrantStmt.deparsePrivileges grantOnTableAndSequence.privileges =
          .ok privsString ∧
        ddlJobs[1]? = some single ∧
        PreprocessGrantStmt.tableLoop sampleCluster grantOnTableAndSequence privsString
          (", ".intercalate (grantOnTableAndSequence.grantees.map sampleCluster.RoleSpecString))
          [16400] "" "" [] = [single] ∧
        single.metadataSyncCommand = "GRANT SELECT ON public.order_id_seq TO alice" :=
  have h := command_depends_on_own_target sampleCluster grantOnTableAndSequence
    [{ targetObjectAddress := ObjectAddressSet RelationRelationId 16384
       metadataSyncCommand := "GRANT SELECT ON public.orders TO alice"
       taskList := sampleCluster.DDLTaskList 16384 "GRANT SELECT ON public.orders TO alice" },
     { targetObjectAddress := ObjectAddressSet RelationRelationId 16400
       metadataSyncCommand := "GRANT SELECT ON public.order_id_seq TO alice"
       taskList := [] }]
    [16384, 16400] 1 16400 rfl rfl rfl
  ⟨_, rfl, by
    obtain ⟨privsString, single, hprivs, hjob, hsingle⟩ := h
    refine ⟨privsString, single, hprivs, hjob, hsingle, ?_⟩
    have hsecond : single = { targetObjectAddress := ObjectAddressSet RelationRelationId 16400
                              metadataSyncCommand := "GRANT SELECT ON public.order_id_seq TO alice"
                              taskList := [] } := by
      have hget : ([{ targetObjectAddress := ObjectAddressSet RelationRelationId 16384
                      metadataSyncCommand := "GRANT SELECT ON public.orders TO alice"
                      taskList := sampleCluster.DDLTaskList 16384
                        "GRANT SELECT ON public.orders TO alice" },
                    { targetObjectAddress := ObjectAddressSet RelationRelationId 16400
                      metadataSyncCommand := "GRANT SELECT ON public.order_id_seq TO alice"
                      taskList := [] }] : List DDLJob)[1]? =
          some { targetObjectAddress := ObjectAddressSet RelationRelationId 16400
                 metadataSyncCommand := "GRANT SELECT ON public.order_id_seq TO alice"
                 taskList := [] } := rfl
      rw [hget] at hjob
      exact (Option.some.inj hjob).symm
    rw [hsecond]⟩

end Citus.Grant
